import Mathlib

/-! # v2scan: capture orchestration

A shallow embedding of `src/v2scan.c`.  The process is a function from a program state
to an outcome.  Every call that leaves the program (device SDK, TIFF library, stdio,
`system`, `exit`) is recorded, in order, as an `Event` in the trace of the state,
together with the result the callee reported.  The callees are collaborators: their
answers come from an `Env`, whose fields may depend on the whole history of events so
far and on the arguments of the call.  A statement "for every `env`" therefore speaks
of every behaviour of the device, the file system and the libraries.

Conventions
* C `int` values are `Int`; the counters `i` and `start` are not wrapped, so statements
  about them describe runs without `int` overflow.  Integer division is `Int.tdiv`.
* The fields of `VVDII_CameraMode`, `VVDII_ImportPara` and `VVD_Image` come from the SDK
  header and are taken as `Int`; the constants of that header are parameters.
* `char` buffers are lists of byte values; `filename[256]` and `stagecmd[256]` are taken
  to be large enough for the text written into them, and `malloc` to succeed.
* `exit` ends a run: no function continues after an outcome whose status is `exited`.
* Loops that count up to a value known on entry are given that value as their budget;
  the theorems show that the budget is never exhausted.

The file has three parts: the embedding, the vocabulary of the statements, and the
proofs, which end with the theorems about the specification.
-/

namespace V2scan

/-! ## Data model -/

/-- The option globals of `v2scan.c` (lines 19-40), set by `main` from the command line. -/
structure Options where
  verbose : Bool
  passiveaf : Bool
  activeaf : Bool
  activeafae : Bool
  output : Option String
  format : String
  distance : Int
  laserpower : Int
  gain : Int
  rmode : Int
  threshold : Int
  autoread : Int
  color : Int
  start : Int
  count : Int
  dynrangeexp : Bool
  subsampling : Int
  noise : Int
  fillhole : Int
  dark : Int
deriving DecidableEq, Repr

/-- The initial values of the option globals. -/
def Options.default : Options :=
  { verbose := false, passiveaf := false, activeaf := false, activeafae := false,
    output := none, format := "TIFF", distance := -1, laserpower := -1, gain := -1,
    rmode := -1, threshold := -1, autoread := -1, color := -1, start := -1, count := 1,
    dynrangeexp := false, subsampling := -1, noise := -1, fillhole := -1, dark := -1 }

/-- The fields of `VVDII_CameraMode` used by the program. -/
structure CameraMode where
  distance : Int
  laserPower : Int
  gain : Int
  r_mode : Int
  threshold : Int
  autoRead : Int
  color : Int
deriving DecidableEq, Repr

/-- The fields of `VVDII_ImportPara` used by the program. -/
structure ImportPara where
  eFillHole : Int
  bDark : Int
  eReduce : Int
  eFilter : Int
deriving DecidableEq, Repr

/-- The fields of `VVD_Image` used by the program; `pixels` is the byte view of the pixel buffer. -/
structure Image where
  attr : Int
  width : Int
  height : Int
  pixels : List Nat
deriving DecidableEq, Repr

/-- The three ways `VividIISCSIScanRead910` is told apart by `perform_release`. -/
inductive ScanResult where
  | illegal
  | vfalse
  | done
deriving DecidableEq, Repr

/-- Tags passed to `TIFFSetField`. -/
inductive TiffTag where
  | imageWidth
  | imageLength
  | samplesPerPixel
  | bitsPerSample
  | orientation
  | planarConfig
  | photometric
  | compression
deriving DecidableEq, Repr

/-- Values passed to `TIFFSetField`. -/
inductive TiffValue where
  | num (n : Int)
  | orientationTopLeft
  | planarConfigContig
  | photometricRGB
  | compressionLZW
deriving DecidableEq, Repr

/-- One call that leaves the program, with the result it reported.  A `printf` is
recorded with its format string and with the text it produces. -/
inductive Event where
  | print (fmt text : String)
  | getErrorStatus (code : Int)
  | scsiInitialize (ok : Bool)
  | scsiReadParameter (ok : Bool)
  | scsiPassiveAF (ok : Bool)
  | scsiActiveAF (ok : Bool)
  | scsiActiveAFAE910 (ok : Bool)
  | scsiWriteParameter (mode : CameraMode) (ok : Bool)
  | scsiScanRead910 (distance laserPower gain : Int) (res : ScanResult)
  | scsiRelease (ok : Bool)
  | scsiReadPitch (ok : Bool)
  | scsiReadColor (rmode : Int) (ok : Bool)
  | pickupColorImage (ok : Bool)
  | scsiFinish
  | freeCameraData
  | system (cmd : String)
  | fopen (name : String) (ok : Bool)
  | fprintf (s : String)
  | fclose
  | tiffOpen (name : String) (ok : Bool)
  | tiffSetField (tag : TiffTag) (v : TiffValue)
  | tiffWriteEncodedStrip (buf : List Nat) (len : Int)
  | tiffClose
  | exit (code : Int)
deriving DecidableEq, Repr

/-- The error constants of the SDK header that `handle_error` switches on. -/
structure ErrorCodes where
  SERR_BUSY : Int
  SERR_WRITE : Int
  SERR_READ : Int
  SERR_BLOCK : Int
  SERR_POWERON : Int
  SERR_HARD : Int
  SERR_PCFORMAT : Int
  SERR_NONATA : Int
  SERR_NOPCCARD : Int
  SERR_PARITY : Int
  SERR_READY : Int
  SERR_OUTOFDIST : Int
  SERR_HDDRESET : Int
  SERR_NOTFOUND : Int
  SERR_ANY : Int
  SERR_MEMORY : Int
  SERR_ARGUMENT : Int
  VERROR_MEM_ALLOC : Int
  VERROR_OPEN_FILE : Int
  VERROR_READ_FILE : Int
  VERROR_NOT_PRODUCT : Int
  VERROR_INVALID_MAGIC : Int
  VERROR_UNKNOWN_TYPE : Int
  VERROR_INVALID_ARGS : Int
  VERROR_WRITE_FILE : Int
  VERROR_NO_IMAGE : Int
  VERROR_MULT_DATA : Int
  VERROR_SINGLE_DATA : Int

/-- The collaborators of the program.  Every answer may depend on the history of
events up to the call (`List Event`) and on the arguments of the call. -/
structure Env where
  codes : ErrorCodes
  /-- `sizeof(VVD_Pixel)`, from the SDK header. -/
  sizeofPixel : Int
  errorStatus : List Event → Int
  scsiInitialize : List Event → Bool
  scsiReadParameter : List Event → CameraMode → Bool × CameraMode
  scsiPassiveAF : List Event → CameraMode → Bool × CameraMode
  scsiActiveAF : List Event → CameraMode → Bool × CameraMode
  scsiActiveAFAE910 : List Event → CameraMode → Bool × CameraMode
  scsiWriteParameter : List Event → CameraMode → Bool
  scsiScanRead910 : List Event → Int → Int → Int → ScanResult
  scsiRelease : List Event → Bool
  scsiReadPitch : List Event → Bool
  scsiReadColor : List Event → Int → Bool
  /-- The contents of `camdata->data3d` when `cmd_scan` reads it. -/
  data3d : List Event → List Nat
  /-- The result of `VividIIPickupColorImage` and the image it leaves in `*image`. -/
  pickupColorImage : List Event → Bool × Image
  fopen : List Event → String → Bool
  tiffOpen : List Event → String → Bool
  /-- The text `sprintf` produces for a format whose directives have no argument
  (undefined in C; only reachable when the output name contains such a directive). -/
  undefinedFormat : String → String

/-- The globals `cammode`, `imp_para`, `camdata`, the options, the local `filename`
of the running command, and the trace of events so far. -/
structure State where
  opts : Options
  cammode : CameraMode
  imp_para : ImportPara
  /-- Whether `camdata` is non-NULL. -/
  camdata : Bool
  filename : String
  trace : List Event

/-- How control leaves a function: it returns, the process ended through `exit`,
the behaviour is undefined (integer division by zero), or the loop budget of the
model ran out. -/
inductive Status where
  | running
  | exited
  | undefined
  | outOfFuel
deriving DecidableEq, Repr

/-- The state reached together with how control left. -/
structure Outcome where
  st : State
  status : Status

/-- Sequencing: the continuation runs only when the first part returned. -/
def Outcome.andThen (o : Outcome) (k : State → Outcome) : Outcome :=
  match o.status with
  | .running => k o.st
  | _ => o

/-- Record one event. -/
def emit (e : Event) (st : State) : State :=
  { st with trace := st.trace ++ [e] }

/-- A `printf` whose format has no directive. -/
def say (s : String) : Event := .print s s

/-- The form `if(verbose) printf(fmt, ...)`, producing `text`. -/
def vprint (fmt text : String) (st : State) : State :=
  if st.opts.verbose then emit (.print fmt text) st else st

/-- The form `if(verbose) printf(s)` for a format without directive. -/
def vsay (s : String) (st : State) : State := vprint s s st

/-- The `%d` conversion applied to an `int`. -/
def fmtInt (n : Int) : String := toString n

/-! ## `set_cammode`, lines 405-440: overrides -/

/-- Lines 405-440 of `set_cammode`, as a transformation of `cammode`: the seven
`if(x>=0) cammode.x=x;` statements in source order. -/
def applyOverrides (o : Options) (m : CameraMode) : CameraMode :=
  let m := if o.distance ≥ 0 then { m with distance := o.distance } else m
  let m := if o.gain ≥ 0 then { m with gain := o.gain } else m
  let m := if o.rmode ≥ 0 then { m with r_mode := o.rmode } else m
  let m := if o.threshold ≥ 0 then { m with threshold := o.threshold } else m
  let m := if o.autoread ≥ 0 then { m with autoRead := o.autoread } else m
  let m := if o.color ≥ 0 then { m with color := o.color } else m
  let m := if o.laserpower ≥ 0 then { m with laserPower := o.laserpower } else m
  m

/-! ## `cmd_image`, lines 346-355: channel permutation -/

/-- The body of the loop at lines 350-353 for the pixel starting at byte `p`:
`buf[p]=buf[p+3]; tmp=buf[p+1]; buf[p+1]=buf[p+2]; buf[p+2]=tmp;`. -/
def permutePixel (buf : List Nat) (p : Nat) : List Nat :=
  let buf := buf.set p (buf.getD (p + 3) 0)
  let tmp := buf.getD (p + 1) 0
  let buf := buf.set (p + 1) (buf.getD (p + 2) 0)
  buf.set (p + 2) tmp

/-- The loop `for(j=0;j<buflen;j+=4)` of lines 348-355, from a given `j`. -/
def permuteLoop (buflen : Int) : Nat → Nat → List Nat → List Nat
  | 0, _, buf => buf
  | fuel + 1, j, buf =>
    if (j : Int) < buflen then permuteLoop buflen fuel (j + 4) (permutePixel buf j) else buf

/-- Lines 347-355: the pixel buffer after the loop.  `buflen` iterations are
never needed, so the budget is always enough. -/
def permuteChannels (buflen : Int) (buf : List Nat) : List Nat :=
  permuteLoop buflen buflen.toNat 0 buf

/-! ## Diagnostics and teardown -/

/-- The `switch` of `handle_error` (lines 119-150). -/
def errorText (c : ErrorCodes) (errorcode : Int) : String :=
  if errorcode = c.SERR_BUSY then "timeout error"
  else if errorcode = c.SERR_WRITE then "scsi write error"
  else if errorcode = c.SERR_READ then "scsi read error"
  else if errorcode = c.SERR_BLOCK then "block error"
  else if errorcode = c.SERR_POWERON then "power on reset error"
  else if errorcode = c.SERR_HARD then "hardware error"
  else if errorcode = c.SERR_PCFORMAT then "pccard format error"
  else if errorcode = c.SERR_NONATA then "non supported pccard"
  else if errorcode = c.SERR_NOPCCARD then "no pccard present"
  else if errorcode = c.SERR_PARITY then "scsi parity error"
  else if errorcode = c.SERR_READY then "ready command error"
  else if errorcode = c.SERR_OUTOFDIST then "out of distance"
  else if errorcode = c.SERR_HDDRESET then "unit reset or hdd changed"
  else if errorcode = c.SERR_NOTFOUND then "vivid not found"
  else if errorcode = c.SERR_ANY then "any error"
  else if errorcode = c.SERR_MEMORY then "scsi memory error"
  else if errorcode = c.SERR_ARGUMENT then "scsi argument error"
  else if errorcode = c.VERROR_MEM_ALLOC then "memory allocation error"
  else if errorcode = c.VERROR_OPEN_FILE then "file open error"
  else if errorcode = c.VERROR_READ_FILE then "file read error"
  else if errorcode = c.VERROR_NOT_PRODUCT then "not a vivid file"
  else if errorcode = c.VERROR_INVALID_MAGIC then "invalid magic number"
  else if errorcode = c.VERROR_UNKNOWN_TYPE then "unknown type"
  else if errorcode = c.VERROR_INVALID_ARGS then "invalid argument"
  else if errorcode = c.VERROR_WRITE_FILE then "file write error"
  else if errorcode = c.VERROR_NO_IMAGE then "has no image"
  else if errorcode = c.VERROR_MULT_DATA then "not a single data file"
  else if errorcode = c.VERROR_SINGLE_DATA then "not a multi data file"
  else "unknown error"

/-- The events of one `handle_error(message)` when the status query answers `errorcode`. -/
def diagnostic (c : ErrorCodes) (message : String) (errorcode : Int) : List Event :=
  [.getErrorStatus errorcode,
   .print "%s Error %d (" (message ++ " Error " ++ fmtInt errorcode ++ " ("),
   say (errorText c errorcode),
   say ")\n"]

/-- `handle_error` (lines 113-152): queries the error status and prints; it returns. -/
def handle_error (env : Env) (message : String) (st : State) : State :=
  let errorcode := env.errorStatus st.trace
  { st with trace := st.trace ++ diagnostic env.codes message errorcode }

/-- `finish_and_exit` (lines 103-110). -/
def finish_and_exit (st : State) : Outcome :=
  let st := vsay "Closing SCSI device...\n" st
  let st := emit .scsiFinish st
  let st := if st.camdata then { emit .freeCameraData st with camdata := false } else st
  { st := emit (.exit 1) st, status := .exited }

/-! ## Capture -/

/-- `perform_release` (lines 155-181). -/
def perform_release (env : Env) (st : State) : Outcome :=
  if st.opts.dynrangeexp then
    let st := vsay "Using dynamic range expansion...\n" st
    let errorcode := env.scsiScanRead910 st.trace st.cammode.distance
      st.cammode.laserPower st.cammode.gain
    let st := emit (.scsiScanRead910 st.cammode.distance st.cammode.laserPower
      st.cammode.gain errorcode) st
    match errorcode with
    | .illegal => finish_and_exit (emit (say "Release Error (No Vivid 910)\n") st)
    | .vfalse => { st := handle_error env "Release" st, status := .running }
    | .done => { st := st, status := .running }
  else
    let ok := env.scsiRelease st.trace
    let st := emit (.scsiRelease ok) st
    let st := if ok then st else handle_error env "Release" st
    let ok := env.scsiReadPitch st.trace
    let st := emit (.scsiReadPitch ok) st
    let st := if ok then st else handle_error env "Read Pitch" st
    let ok := env.scsiReadColor st.trace st.cammode.r_mode
    let st := emit (.scsiReadColor st.cammode.r_mode ok) st
    let st := if ok then st else handle_error env "Read Color" st
    { st := st, status := .running }

/-! ## Negotiation -/

/-- `get_cammode` (lines 184-200). -/
def get_cammode (env : Env) (st : State) : Outcome :=
  let st := vsay "Initializing SCSI device...\n" st
  let ok := env.scsiInitialize st.trace
  let st := emit (.scsiInitialize ok) st
  if ok then
    let st := vsay "Reading camera parameters...\n" st
    let r := env.scsiReadParameter st.trace st.cammode
    let st := { emit (.scsiReadParameter r.1) st with cammode := r.2 }
    if r.1 then { st := st, status := .running }
    else finish_and_exit (handle_error env "Read Camera Mode" st)
  else
    { st := emit (.exit 1) (handle_error env "SCSI Initialize" st), status := .exited }

/-- The common shape of the three assist blocks of `set_cammode` (lines 374-403):
`if(requested) { if(verbose) printf(announce); if(call(&cammode)==VVD_FALSE)
{ handle_error(message); finish_and_exit(); } }`. -/
def assist (env : Env) (requested : Bool) (announce : String)
    (call : List Event → CameraMode → Bool × CameraMode) (ev : Bool → Event)
    (message : String) (st : State) : Outcome :=
  if requested then
    let st := vsay announce st
    let r := call st.trace st.cammode
    let st := { emit (ev r.1) st with cammode := r.2 }
    if r.1 then { st := st, status := .running }
    else finish_and_exit (handle_error env message st)
  else { st := st, status := .running }

/-- The verbose messages of lines 405-440, in source order. -/
def overrideMessages (o : Options) : List Event :=
  (if o.distance ≥ 0 then
      [.print "Setting distance to %d...\n"
        ("Setting distance to " ++ fmtInt o.distance ++ "...\n")] else [])
  ++ (if o.gain ≥ 0 then
      [.print "Setting gain to %d...\n"
        ("Setting gain to " ++ fmtInt o.gain ++ "...\n")] else [])
  ++ (if o.rmode ≥ 0 then
      [.print "Setting rmode to %d...\n"
        ("Setting rmode to " ++ fmtInt o.rmode ++ "...\n")] else [])
  ++ (if o.threshold ≥ 0 then
      [.print "Setting threshold to %d...\n"
        ("Setting threshold to " ++ fmtInt o.threshold ++ "...\n")] else [])
  ++ (if o.autoread ≥ 0 then
      [.print "Setting autoread to %d...\n"
        ("Setting autoread to " ++ fmtInt o.autoread ++ "...\n")] else [])
  ++ (if o.color ≥ 0 then
      [.print "Setting color to %d...\n"
        ("Setting color to " ++ fmtInt o.color ++ "...\n")] else [])
  ++ (if o.laserpower ≥ 0 then
      [.print "Setting laserpower to %d...\n"
        ("Setting laserpower to " ++ fmtInt o.laserpower ++ "...\n")] else [])

/-- Lines 442-462 of `set_cammode`, as a transformation of `imp_para`. -/
def applyFilterFlags (o : Options) (p : ImportPara) : ImportPara :=
  let p := if o.fillhole ≥ 0 then { p with eFillHole := 1 } else p
  let p := if o.dark ≥ 0 then { p with bDark := 1 } else p
  let p := if o.subsampling ≥ 0 then { p with eReduce := o.subsampling } else p
  let p := if o.noise ≥ 0 then { p with eFilter := o.noise } else p
  p

/-- The verbose messages of lines 442-462, in source order. -/
def filterMessages (o : Options) : List Event :=
  (if o.fillhole ≥ 0 then [say "Using fillhole filter...\n"] else [])
  ++ (if o.dark ≥ 0 then [say "Using color dark correction filter...\n"] else [])
  ++ (if o.subsampling ≥ 0 then [say "Using subsampling filter...\n"] else [])
  ++ (if o.noise ≥ 0 then [say "Using noise filter...\n"] else [])

/-- Lines 405-462 of `set_cammode`: overrides and import filters, with their
verbose messages. -/
def applyParameters (st : State) : State :=
  { st with
    cammode := applyOverrides st.opts st.cammode
    imp_para := applyFilterFlags st.opts st.imp_para
    trace := st.trace ++
      (if st.opts.verbose then overrideMessages st.opts ++ filterMessages st.opts else []) }

/-- Lines 464-470 of `set_cammode`: the write-back. -/
def writeParameters (env : Env) (st : State) : Outcome :=
  let st := vsay "Writing parameters...\n" st
  let ok := env.scsiWriteParameter st.trace st.cammode
  let st := emit (.scsiWriteParameter st.cammode ok) st
  if ok then { st := st, status := .running }
  else finish_and_exit (handle_error env "Write Camera Mode" st)

/-- `set_cammode` (lines 371-471). -/
def set_cammode (env : Env) (st : State) : Outcome :=
  (assist env st.opts.passiveaf "Performing Passive AF...\n" env.scsiPassiveAF
      .scsiPassiveAF "Passive AF" st).andThen fun st =>
  (assist env st.opts.activeaf "Performing Active AF...\n" env.scsiActiveAF
      .scsiActiveAF "Active AF" st).andThen fun st =>
  (assist env st.opts.activeafae "Performing Active AF/AE...\n" env.scsiActiveAFAE910
      .scsiActiveAFAE910 "Active AF/AE" st).andThen fun st =>
  writeParameters env (applyParameters st)

/-- The two calls `get_cammode(); set_cammode();` that open every command. -/
def negotiate (env : Env) (st : State) : Outcome :=
  (get_cammode env st).andThen (set_cammode env)

/-! ## Loop state shared by `cmd_scan` and `cmd_image` -/

/-- The text `sprintf((char *)&stagecmd,"stage.exe -r %d",start)` leaves in `stagecmd`. -/
def stageCommand (a : Int) : String := "stage.exe -r " ++ fmtInt a

/-- The block `if(count>1) { ... }` at lines 242-248 and 313-319, for the index `i`:
the file name is rebuilt and `stage.exe` is run with the current `start`.
`output` is never NULL here, both commands give it a default first. -/
def rotate (i : Int) (st : State) : State :=
  let st := { st with filename := st.opts.output.getD "" ++ fmtInt i ++ "." ++ st.opts.format }
  let stagecmd := stageCommand st.opts.start
  let st := vprint "Rotating: %s...\n" ("Rotating: " ++ stagecmd ++ "...\n") st
  emit (.system stagecmd) st

/-- The step `start+=360/count` of both `for` statements; `/` is C integer division,
undefined for a zero divisor. -/
def advance (st : State) : Outcome :=
  if st.opts.count = 0 then { st := st, status := .undefined }
  else
    { st := { st with
              opts := { st.opts with start := st.opts.start + Int.tdiv 360 st.opts.count } },
      status := .running }

/-- `sprintf(filename, fmt)` with no further argument: ordinary characters are
copied and `%%` gives `%`; any other directive would read an argument that was
not passed, for which the result is `none`. -/
def formatNoArgs : List Char → Option (List Char)
  | [] => some []
  | [c] => if c = '%' then none else some [c]
  | c :: d :: rest =>
    if c = '%' then
      if d = '%' then (formatNoArgs rest).map (fun r => '%' :: r) else none
    else (formatNoArgs (d :: rest)).map (fun r => c :: r)

/-- The text left in `filename` by `sprintf((char *)&filename,output)` (line 232). -/
def sprintfName (env : Env) (output : String) : String :=
  match formatNoArgs output.data with
  | some cs => String.mk cs
  | none => env.undefinedFormat output

/-! ## `cmd_scan` -/

/-- The `%d` conversion applied to an `unsigned long` sample (line 279): `%d` reads
an `int`, so the low 32 bits of the sample are printed as a two's complement number. -/
def fmtSample (v : Nat) : String :=
  fmtInt (if v % 2 ^ 32 < 2 ^ 31 then (v % 2 ^ 32 : Nat) else (v % 2 ^ 32 : Nat) - 2 ^ 32)

/-- The seven `fprintf` calls of lines 263-269. -/
def scanHeader : List Event :=
  [.fprintf "IBRraw.xdr\n",
   .fprintf "@@ImageDim = 3\n",
   .fprintf "@@ImageSize = 640 480\n",
   .fprintf "@@buffer-channels-0 = 3\n",
   .fprintf "@@buffer-primtype-0 = byte\n",
   .fprintf "@@buffer-type-0 = color\n",
   .fprintf "---end-of-header---\n"]

/-- The inner loop `for(x=0;x<640;x++) fprintf(out,"%d\n",*buffer++);` with `n`
iterations left and the pointer at index `p` of the sample buffer. -/
def writeRow (buffer : List Nat) : Nat → Nat → List Event
  | 0, _ => []
  | n + 1, p => .fprintf (fmtSample (buffer.getD p 0) ++ "\n") :: writeRow buffer n (p + 1)

/-- The outer loop `for(y=0;y<480;y++)` with `n` rows left and the pointer at `p`. -/
def writeRows (verbose : Bool) (buffer : List Nat) : Nat → Nat → List Event
  | 0, _ => []
  | n + 1, p =>
    (if verbose then [say "."] else []) ++ writeRow buffer 640 p
      ++ writeRows verbose buffer n (p + 640)

/-- Lines 261-283: everything done with the opened file, up to `fclose`. -/
def scanFile (verbose : Bool) (buffer : List Nat) : List Event :=
  (if verbose then [say "Writing header...\n"] else []) ++ scanHeader
    ++ (if verbose then [say "Writing data...\n"] else [])
    ++ writeRows verbose buffer 480 0
    ++ (if verbose then [say "\n"] else []) ++ [.fclose]

/-- Lines 252-283: open the file, write it, close it. -/
def scanWrite (env : Env) (st : State) : Outcome :=
  let st := vprint "Open %s for writing...\n" ("Open " ++ st.filename ++ " for writing...\n") st
  let ok := env.fopen st.trace st.filename
  let st := emit (.fopen st.filename ok) st
  if ok then
    { st := { st with trace := st.trace ++ scanFile st.opts.verbose (env.data3d st.trace) },
      status := .running }
  else
    finish_and_exit (emit (.print "Couldn't open %s for writing!\n"
      ("Couldn't open " ++ st.filename ++ " for writing!\n")) st)

/-- The body of the loop of `cmd_scan` (lines 240-284) for the index `i`. -/
def scanBody (env : Env) (i : Int) (st : State) : Outcome :=
  let st := if st.opts.count > 1 then rotate i st else st
  (perform_release env st).andThen (scanWrite env)

/-- The loop `for(i=1;i<=count;i++,start+=360/count)` of `cmd_scan`, from index `i`,
with a budget of `fuel` iterations. -/
def scanLoop (env : Env) : Nat → Int → State → Outcome
  | 0, i, st =>
    if i ≤ st.opts.count then { st := st, status := .outOfFuel }
    else { st := st, status := .running }
  | fuel + 1, i, st =>
    if i ≤ st.opts.count then
      ((scanBody env i st).andThen advance).andThen (scanLoop env fuel (i + 1))
    else { st := st, status := .running }

/-- `cmd_scan` (lines 221-286).  The loop gets a budget of `count` iterations,
which it never exceeds. -/
def cmd_scan (env : Env) (st : State) : Outcome :=
  let st := { st with camdata := true }
  let st := { st with opts := { st.opts with output := some (st.opts.output.getD "image.hdr") } }
  let st := { st with filename := sprintfName env (st.opts.output.getD "") }
  (negotiate env st).andThen fun st =>
  (scanLoop env st.opts.count.toNat 1 st).andThen finish_and_exit

/-! ## `cmd_image` -/

/-- Lines 338-345: the eight `TIFFSetField` calls. -/
def tiffFields (image : Image) : List Event :=
  [.tiffSetField .imageWidth (.num image.width),
   .tiffSetField .imageLength (.num image.height),
   .tiffSetField .samplesPerPixel (.num 4),
   .tiffSetField .bitsPerSample (.num 8),
   .tiffSetField .orientation .orientationTopLeft,
   .tiffSetField .planarConfig .planarConfigContig,
   .tiffSetField .photometric .photometricRGB,
   .tiffSetField .compression .compressionLZW]

/-- Lines 328-364: the `TIFF` branch and the `else` branch. -/
def imageWrite (env : Env) (image : Image) (st : State) : Outcome :=
  if st.opts.format = "TIFF" then
    let st := vprint "Open %s for writing (format %s)...\n"
      ("Open " ++ st.filename ++ " for writing (format " ++ st.opts.format ++ ")...\n") st
    let ok := env.tiffOpen st.trace st.filename
    let st := emit (.tiffOpen st.filename ok) st
    if ok then
      let st := { st with trace := st.trace ++ tiffFields image }
      let buflen := image.width * image.height * env.sizeofPixel
      let pixels := permuteChannels buflen image.pixels
      let st := vprint "Writing strip (%d bytes)...\n"
        ("Writing strip (" ++ fmtInt buflen ++ " bytes)...\n") st
      let st := emit (.tiffWriteEncodedStrip pixels buflen) st
      let st := emit .tiffClose st
      { st := emit (.print "Wrote %s ...\n" ("Wrote " ++ st.filename ++ " ...\n")) st,
        status := .running }
    else
      finish_and_exit (emit (.print "Couldn't open %s for writing...\n"
        ("Couldn't open " ++ st.filename ++ " for writing...\n")) st)
  else
    { st := emit (say "Unknown format! Supported formats: TIFF\n") st, status := .running }

/-- Lines 321-364: pickup of the colour image, then the write. -/
def imagePickup (env : Env) (st : State) : Outcome :=
  let r := env.pickupColorImage st.trace
  let st := emit (.pickupColorImage r.1) st
  let st := if r.1 then st else handle_error env "Pickup Color Image" st
  let image := r.2
  let st := vprint "ImageType: %d, Width: %d, Height: %d\n"
    ("ImageType: " ++ fmtInt image.attr ++ ", Width: " ++ fmtInt image.width
      ++ ", Height: " ++ fmtInt image.height ++ "\n") st
  imageWrite env image st

/-- The body of the loop of `cmd_image` (lines 311-365) for the index `i`. -/
def imageBody (env : Env) (i : Int) (st : State) : Outcome :=
  let st := if st.opts.count > 1 then rotate i st else st
  (perform_release env st).andThen (imagePickup env)

/-- The loop `for(i=1;i<=count;i++,start+=360/count)` of `cmd_image`, from index `i`,
with a budget of `fuel` iterations. -/
def imageLoop (env : Env) : Nat → Int → State → Outcome
  | 0, i, st =>
    if i ≤ st.opts.count then { st := st, status := .outOfFuel }
    else { st := st, status := .running }
  | fuel + 1, i, st =>
    if i ≤ st.opts.count then
      ((imageBody env i st).andThen advance).andThen (imageLoop env fuel (i + 1))
    else { st := st, status := .running }

/-- `cmd_image` (lines 289-368).  The loop gets a budget of `count` iterations,
which it never exceeds. -/
def cmd_image (env : Env) (st : State) : Outcome :=
  let st := { st with camdata := true }
  let st := { st with opts := { st.opts with output := some (st.opts.output.getD "image") } }
  let st := { st with filename := st.opts.output.getD "" ++ "." ++ st.opts.format }
  (negotiate env st).andThen fun st =>
  (imageLoop env st.opts.count.toNat 1 st).andThen finish_and_exit

/-! ## `cmd_status` -/

/-- Lines 208-216: the status report. -/
def statusReport (m : CameraMode) : List Event :=
  [say "VividII Camera Status:\n",
   say "----------------------\n",
   .print "Distance:         %dmm\n" ("Distance:         " ++ fmtInt m.distance ++ "mm\n"),
   .print "Laser Power:      %d\n" ("Laser Power:      " ++ fmtInt m.laserPower ++ "\n"),
   .print "Gain:             %d\n" ("Gain:             " ++ fmtInt m.gain ++ "\n"),
   .print "RMode:            %d\n" ("RMode:            " ++ fmtInt m.r_mode ++ "\n"),
   .print "Threshold:        %d\n" ("Threshold:        " ++ fmtInt m.threshold ++ "\n"),
   .print "Auto Read:        %d\n" ("Auto Read:        " ++ fmtInt m.autoRead ++ "\n"),
   .print "Color correction: %d\n" ("Color correction: " ++ fmtInt m.color ++ "\n")]

/-- `cmd_status` (lines 203-218). -/
def cmd_status (env : Env) (st : State) : Outcome :=
  (negotiate env st).andThen fun st =>
  finish_and_exit { st with trace := st.trace ++ statusReport st.cammode }

/-- The state in which `main` calls a command: the globals `cammode` and `imp_para`
zero-initialised, `camdata` NULL, nothing done yet, and the options as parsed. -/
def State.initial (o : Options) : State :=
  { opts := o,
    cammode := { distance := 0, laserPower := 0, gain := 0, r_mode := 0, threshold := 0,
                 autoRead := 0, color := 0 },
    imp_para := { eFillHole := 0, bDark := 0, eReduce := 0, eFilter := 0 },
    camdata := false, filename := "", trace := [] }

/-- The commands `main` dispatches on (lines 634-636). -/
inductive Command where
  | status
  | scan
  | image
deriving DecidableEq, Repr

/-- One run of the program: the command applied to the initial state. -/
def run (env : Env) (c : Command) (o : Options) : Outcome :=
  match c with
  | .status => cmd_status env (State.initial o)
  | .scan => cmd_scan env (State.initial o)
  | .image => cmd_image env (State.initial o)

/-! ## Vocabulary for statements about traces -/

/-- What an event is, for statements about which calls a run makes. -/
inductive Kind where
  | output
  | query
  | session
  | negotiation
  | capture
  | pickup
  | teardown
  | rotation
  | fileOpen
  | fileWrite
  | exit
deriving DecidableEq, Repr

/-- The kind of each event. -/
def kind : Event → Kind
  | .print _ _ => .output
  | .getErrorStatus _ => .query
  | .scsiInitialize _ => .session
  | .scsiReadParameter _ => .negotiation
  | .scsiPassiveAF _ => .negotiation
  | .scsiActiveAF _ => .negotiation
  | .scsiActiveAFAE910 _ => .negotiation
  | .scsiWriteParameter _ _ => .negotiation
  | .scsiScanRead910 _ _ _ _ => .capture
  | .scsiRelease _ => .capture
  | .scsiReadPitch _ => .capture
  | .scsiReadColor _ _ => .capture
  | .pickupColorImage _ => .pickup
  | .scsiFinish => .teardown
  | .freeCameraData => .teardown
  | .system _ => .rotation
  | .fopen _ _ => .fileOpen
  | .fprintf _ => .fileWrite
  | .fclose => .fileWrite
  | .tiffOpen _ _ => .fileOpen
  | .tiffSetField _ _ => .fileWrite
  | .tiffWriteEncodedStrip _ _ => .fileWrite
  | .tiffClose => .fileWrite
  | .exit _ => .exit

/-- A negotiation call after the session was opened that reported failure, with the
name `set_cammode` or `get_cammode` passes to `handle_error` for it. -/
def failedStep : Event → Option String
  | .scsiReadParameter false => some "Read Camera Mode"
  | .scsiPassiveAF false => some "Passive AF"
  | .scsiActiveAF false => some "Active AF"
  | .scsiActiveAFAE910 false => some "Active AF/AE"
  | .scsiWriteParameter _ false => some "Write Camera Mode"
  | _ => none

/-- Output other than the report of an unsupported format, and negotiation calls
that reported success. -/
def quiet : Event → Bool
  | .print fmt _ => decide (fmt ≠ "Unknown format! Supported formats: TIFF\n")
  | .scsiInitialize true => true
  | .scsiReadParameter true => true
  | .scsiPassiveAF true => true
  | .scsiActiveAF true => true
  | .scsiActiveAFAE910 true => true
  | .scsiWriteParameter _ true => true
  | _ => false

/-- The events of `finish_and_exit`, for the given `verbose` and whether `camdata` is set. -/
def teardown (verbose camdata : Bool) : List Event :=
  (if verbose then [say "Closing SCSI device...\n"] else []) ++ [.scsiFinish]
    ++ (if camdata then [.freeCameraData] else []) ++ [.exit 1]

/-- The steps of a run that the statements about the multi-view loop speak of. -/
inductive Mark where
  | rotated (cmd : String)
  | captured
  | pickedUp
  | opened (name : String)
  | unsupported
deriving DecidableEq, Repr

/-- The mark of an event, if it has one: a `system` call, the first device call of
`perform_release`, the image pickup, the opening of an output file, and the report
of an unsupported format. -/
def view : Event → Option Mark
  | .system cmd => some (.rotated cmd)
  | .scsiRelease _ => some .captured
  | .scsiScanRead910 _ _ _ _ => some .captured
  | .pickupColorImage _ => some .pickedUp
  | .fopen name _ => some (.opened name)
  | .tiffOpen name _ => some (.opened name)
  | .print fmt _ => if fmt = "Unknown format! Supported formats: TIFF\n" then some .unsupported
                    else none
  | _ => none

/-- The marks of a trace, in order. -/
def marks (tr : List Event) : List Mark := tr.filterMap view

/-- The marks of `count` shots in a row, shot number `k` (from 0) contributing `f k`. -/
def perShot (count : Int) (f : Nat → List Mark) : List Mark :=
  ((List.range count.toNat).map f).flatten

/-- The negotiation calls never report failure. -/
structure NegotiationSucceeds (env : Env) : Prop where
  init : ∀ h, env.scsiInitialize h = true
  read : ∀ h m, (env.scsiReadParameter h m).1 = true
  passive : ∀ h m, (env.scsiPassiveAF h m).1 = true
  active : ∀ h m, (env.scsiActiveAF h m).1 = true
  activeAE : ∀ h m, (env.scsiActiveAFAE910 h m).1 = true
  write : ∀ h m, env.scsiWriteParameter h m = true

/-- The dynamic-range scan-read never answers `VVD_ILLEGAL`, the one capture
result after which `perform_release` ends the process. -/
def CaptureNotFatal (env : Env) : Prop :=
  ∀ h d l g, env.scsiScanRead910 h d l g ≠ .illegal

/-- Opening the output file of `cmd_scan` never fails. -/
def FopenSucceeds (env : Env) : Prop := ∀ h name, env.fopen h name = true

/-- Opening the output file of `cmd_image` never fails. -/
def TiffOpenSucceeds (env : Env) : Prop := ∀ h name, env.tiffOpen h name = true

/-- The marks the statement about angles speaks of: rotations and captures. -/
def Mark.onAngle : Mark → Bool
  | .rotated _ => true
  | .captured => true
  | _ => false

/-- Where the loop takes the byte at index `i` from. -/
def sourceIndex (i : Nat) : Nat :=
  if i % 4 = 0 then i + 3 else if i % 4 = 1 then i + 1 else if i % 4 = 2 then i - 1 else i

/-- The negotiation step returned: only the camera mode, the import parameters and the
trace changed, and the new events are output or calls that reported success. -/
def NegRunning (st : State) (o : Outcome) : Prop :=
  o.status = .running ∧ ∃ cm ip evs,
    o.st = { st with cammode := cm, imp_para := ip, trace := st.trace ++ evs } ∧
    ∀ e ∈ evs, quiet e = true

/-- The negotiation step ended the process after a failed call `e`. -/
def NegFailed (env : Env) (st : State) (o : Outcome) : Prop :=
  o.status = .exited ∧ o.st.opts = st.opts ∧ ∃ pre e msg code,
    failedStep e = some msg ∧
    o.st.trace = st.trace ++ pre ++
      e :: (diagnostic env.codes msg code ++ teardown st.opts.verbose st.camdata) ∧
    ∀ x ∈ pre, quiet x = true

/-- The session could not be opened. -/
def InitFailed (env : Env) (st : State) (o : Outcome) : Prop :=
  o.status = .exited ∧ o.st.opts = st.opts ∧ ∃ pre code,
    o.st.trace = st.trace ++ pre ++
      .scsiInitialize false :: (diagnostic env.codes "SCSI Initialize" code ++ [.exit 1]) ∧
    ∀ x ∈ pre, kind x = .output

/-- The step returned, changed nothing but the trace, and added events with the marks `ms`. -/
def Yields (st : State) (o : Outcome) (ms : List Mark) : Prop :=
  o.status = .running ∧ ∃ evs, o.st = { st with trace := st.trace ++ evs } ∧ marks evs = ms

/-- The marks of the shot with index `idx` taken at the angle `a`; `tail` gives the
marks of what follows the capture, from the format and the file name. -/
def shotMarks (count : Int) (base format fname : String)
    (tail : String → String → List Mark) (idx a : Int) : List Mark :=
  (if count > 1 then [.rotated (stageCommand a)] else []) ++
    .captured :: tail format (if count > 1 then base ++ fmtInt idx ++ "." ++ format else fname)

/-- Not a call of the negotiation phase. -/
def offNegotiation (e : Event) : Bool :=
  kind e != .session && kind e != .negotiation

/-- The trace `t'` extends `t` by events that satisfy `p`. -/
def Grows (p : Event → Bool) (t t' : List Event) : Prop :=
  ∃ evs, t' = t ++ evs ∧ evs.all p = true

/-- The state in which a command starts to negotiate: `camdata` allocated and the
output name resolved by `cmd_scan` and `cmd_image`, nothing yet for `cmd_status`. -/
def entryState (env : Env) (c : Command) (o : Options) : State :=
  match c with
  | .status => State.initial o
  | .scan =>
    { State.initial o with
      camdata := true
      opts := { o with output := some (o.output.getD "image.hdr") }
      filename := sprintfName env (o.output.getD "image.hdr") }
  | .image =>
    { State.initial o with
      camdata := true
      opts := { o with output := some (o.output.getD "image") }
      filename := o.output.getD "image" ++ "." ++ o.format }

/-- What a command does after the negotiation. -/
def continuation (env : Env) (c : Command) (st : State) : Outcome :=
  match c with
  | .status => finish_and_exit { st with trace := st.trace ++ statusReport st.cammode }
  | .scan => (scanLoop env st.opts.count.toNat 1 st).andThen finish_and_exit
  | .image => (imageLoop env st.opts.count.toNat 1 st).andThen finish_and_exit

/-- Not the call that opens the session. -/
def offSession (e : Event) : Bool := kind e != .session

/-- Neither a rotation, nor a capture or pickup call, nor an operation on an output file. -/
def harmless (e : Event) : Bool :=
  kind e != .rotation && kind e != .capture && kind e != .pickup && kind e != .fileOpen
    && kind e != .fileWrite

/-- Arbitrary distinct values for the error constants, for concrete runs. -/
def ErrorCodes.sample : ErrorCodes :=
  ⟨1, 2, 3, 4, 5, 6, 7, 8, 9, 10, 11, 12, 13, 14, 15, 16, 17, 18, 19, 20, 21, 22, 23, 24, 25, 26,
    27, 28⟩

/-- Collaborators that never report a failure; the picked-up image is two pixels wide. -/
def Env.ideal : Env :=
  { codes := ErrorCodes.sample, sizeofPixel := 4, errorStatus := fun _ => 3,
    scsiInitialize := fun _ => true,
    scsiReadParameter := fun _ _ => (true, ⟨600, 10, 1, 0, 5, 0, 10⟩),
    scsiPassiveAF := fun _ m => (true, m),
    scsiActiveAF := fun _ m => (true, m),
    scsiActiveAFAE910 := fun _ m => (true, m),
    scsiWriteParameter := fun _ _ => true,
    scsiScanRead910 := fun _ _ _ _ => .done,
    scsiRelease := fun _ => true,
    scsiReadPitch := fun _ => true,
    scsiReadColor := fun _ _ => true,
    data3d := fun _ => List.replicate 307200 0,
    pickupColorImage := fun _ => (true, ⟨0, 2, 1, [1, 2, 3, 4, 5, 6, 7, 8]⟩),
    fopen := fun _ _ => true,
    tiffOpen := fun _ _ => true,
    undefinedFormat := fun s => s }

/-- As `Env.ideal`, but `VividIISCSIRelease` reports failure. -/
def Env.releaseFails : Env := { Env.ideal with scsiRelease := fun _ => false }

/-- As `Env.ideal`, but `VividIISCSIReadParameter` reports failure. -/
def Env.readFails : Env := { Env.ideal with scsiReadParameter := fun _ m => (false, m) }

/-- The strings a trace writes to the open output file with `fprintf`, in order. -/
def written (tr : List Event) : List String :=
  tr.filterMap fun e => match e with
    | .fprintf s => some s
    | _ => none

/-! # Lemmas -/

/-! ## Channel permutation -/

theorem permutePixel_length (buf : List Nat) (p : Nat) :
    (permutePixel buf p).length = buf.length := by
  simp [permutePixel]

theorem permuteLoop_length (n : Int) (fuel : Nat) : ∀ (j : Nat) (buf : List Nat),
    (permuteLoop n fuel j buf).length = buf.length := by
  induction fuel with
  | zero => intro j buf; rfl
  | succ f ih =>
    intro j buf
    simp only [permuteLoop]
    split
    · rw [ih, permutePixel_length]
    · rfl

theorem permutePixel_getD (buf : List Nat) (p i : Nat) (hp : p + 3 < buf.length) :
    (permutePixel buf p).getD i 0 =
      if i = p then buf.getD (p + 3) 0
      else if i = p + 1 then buf.getD (p + 2) 0
      else if i = p + 2 then buf.getD (p + 1) 0
      else buf.getD i 0 := by
  simp only [permutePixel, List.getD_eq_getElem?_getD, List.getElem?_set, List.length_set]
  split_ifs <;> first | rfl | omega

theorem permuteLoop_getD (n : Nat) (hn : n % 4 = 0) (fuel : Nat) :
    ∀ (j : Nat) (buf : List Nat), buf.length = n → j % 4 = 0 → n ≤ j + 4 * fuel →
      ∀ i, (permuteLoop (n : Int) fuel j buf).getD i 0 =
        if i < j then buf.getD i 0 else buf.getD (sourceIndex i) 0 := by
  have tail : ∀ (j : Nat) (buf : List Nat), buf.length = n → j % 4 = 0 → n ≤ j →
      ∀ i, buf.getD i 0 = if i < j then buf.getD i 0 else buf.getD (sourceIndex i) 0 := by
    intro j buf hl hj hle i
    split_ifs with h
    · rfl
    · have h1 : buf.length ≤ i := by omega
      have h2 : buf.length ≤ sourceIndex i := by unfold sourceIndex; split_ifs <;> omega
      rw [List.getD_eq_default _ _ h1, List.getD_eq_default _ _ h2]
  induction fuel with
  | zero =>
    intro j buf hl hj hle i
    simp only [permuteLoop]
    exact tail j buf hl hj (by omega) i
  | succ f ih =>
    intro j buf hl hj hle i
    simp only [permuteLoop]
    split
    next hlt =>
      have hlt' : j < n := by exact_mod_cast hlt
      have hj3 : j + 3 < buf.length := by omega
      rw [ih (j + 4) (permutePixel buf j) (by rw [permutePixel_length, hl]) (by omega) (by omega) i]
      rw [permutePixel_getD buf j i hj3, permutePixel_getD buf j (sourceIndex i) hj3]
      unfold sourceIndex
      split_ifs <;> first | rfl | omega | (congr 1; omega)
    next hge =>
      have hge' : n ≤ j := by
        have : ¬ ((j : Int) < (n : Int)) := hge
        omega
      exact tail j buf hl hj hge' i

/-! ## Overrides -/

theorem applyOverrides_eq (o : Options) (m : CameraMode) :
    applyOverrides o m =
      { distance := if o.distance ≥ 0 then o.distance else m.distance,
        laserPower := if o.laserpower ≥ 0 then o.laserpower else m.laserPower,
        gain := if o.gain ≥ 0 then o.gain else m.gain,
        r_mode := if o.rmode ≥ 0 then o.rmode else m.r_mode,
        threshold := if o.threshold ≥ 0 then o.threshold else m.threshold,
        autoRead := if o.autoread ≥ 0 then o.autoread else m.autoRead,
        color := if o.color ≥ 0 then o.color else m.color } := by
  unfold applyOverrides
  by_cases h1 : o.distance ≥ 0 <;> by_cases h2 : o.gain ≥ 0 <;> by_cases h3 : o.rmode ≥ 0 <;>
  by_cases h4 : o.threshold ≥ 0 <;> by_cases h5 : o.autoread ≥ 0 <;> by_cases h6 : o.color ≥ 0 <;>
  by_cases h7 : o.laserpower ≥ 0 <;> simp only [h1, h2, h3, h4, h5, h6, h7, if_true, if_false]

theorem applyOverrides_idem (o : Options) (m : CameraMode) :
    applyOverrides o (applyOverrides o m) = applyOverrides o m := by
  rw [applyOverrides_eq o (applyOverrides o m), applyOverrides_eq o m]
  simp only [CameraMode.mk.injEq]
  refine ⟨?_, ?_, ?_, ?_, ?_, ?_, ?_⟩ <;> split_ifs <;> rfl

/-! ## Basic facts -/

@[simp] theorem emit_trace (e : Event) (st : State) : (emit e st).trace = st.trace ++ [e] := rfl

@[simp] theorem emit_opts (e : Event) (st : State) : (emit e st).opts = st.opts := rfl

@[simp] theorem emit_camdata (e : Event) (st : State) : (emit e st).camdata = st.camdata := rfl

@[simp] theorem emit_filename (e : Event) (st : State) : (emit e st).filename = st.filename := rfl

@[simp] theorem emit_cammode (e : Event) (st : State) : (emit e st).cammode = st.cammode := rfl

@[simp] theorem vprint_opts (f t : String) (st : State) : (vprint f t st).opts = st.opts := by
  unfold vprint; split <;> rfl

@[simp] theorem vprint_camdata (f t : String) (st : State) :
    (vprint f t st).camdata = st.camdata := by
  unfold vprint; split <;> rfl

@[simp] theorem vprint_filename (f t : String) (st : State) :
    (vprint f t st).filename = st.filename := by
  unfold vprint; split <;> rfl

@[simp] theorem vprint_cammode (f t : String) (st : State) :
    (vprint f t st).cammode = st.cammode := by
  unfold vprint; split <;> rfl

theorem vprint_trace (f t : String) (st : State) :
    (vprint f t st).trace = st.trace ++ (if st.opts.verbose then [.print f t] else []) := by
  unfold vprint; split <;> simp

theorem finish_and_exit_trace (st : State) :
    (finish_and_exit st).st.trace = st.trace ++ teardown st.opts.verbose st.camdata := by
  unfold finish_and_exit teardown vsay
  by_cases hc : st.camdata = true <;> by_cases hv : st.opts.verbose = true <;>
    simp [hc, hv, vprint_trace, say]

@[simp] theorem finish_and_exit_status (st : State) : (finish_and_exit st).status = .exited := rfl

@[simp] theorem finish_and_exit_opts (st : State) : (finish_and_exit st).st.opts = st.opts := by
  unfold finish_and_exit vsay
  simp only [emit_opts]
  split <;> simp

/-! ## Negotiation -/

theorem negRunning_refl (st : State) : NegRunning st ⟨st, .running⟩ :=
  ⟨rfl, st.cammode, st.imp_para, [], by simp, by simp⟩

theorem vprint_eq (f t : String) (st : State) :
    vprint f t st =
      { st with trace := st.trace ++ (if st.opts.verbose then [.print f t] else []) } := by
  unfold vprint emit; split <;> simp

theorem handle_error_eq (env : Env) (m : String) (st : State) :
    handle_error env m st =
      { st with trace := st.trace ++ diagnostic env.codes m (env.errorStatus st.trace) } := rfl

theorem quiet_vprint (b : Bool) (f t : String)
    (hf : f ≠ "Unknown format! Supported formats: TIFF\n") :
    ∀ e ∈ (if b = true then [Event.print f t] else []), quiet e = true := by
  intro e he
  cases b <;> simp at he
  subst he; simp [quiet, hf]

theorem assist_cases (env : Env) (requested : Bool) (announce : String)
    (call : List Event → CameraMode → Bool × CameraMode) (ev : Bool → Event) (message : String)
    (ha : announce ≠ "Unknown format! Supported formats: TIFF\n")
    (hq : quiet (ev true) = true) (hf : failedStep (ev false) = some message) (st : State) :
    NegRunning st (assist env requested announce call ev message st) ∨
    NegFailed env st (assist env requested announce call ev message st) := by
  unfold assist
  by_cases hr : requested = true
  · simp only [hr, if_true]
    by_cases hok : (call (vsay announce st).trace (vsay announce st).cammode).1 = true
    · left
      simp only [hok, if_true]
      refine ⟨rfl, (call (vsay announce st).trace (vsay announce st).cammode).2, st.imp_para,
        (if st.opts.verbose then [.print announce announce] else []) ++ [ev true], ?_, ?_⟩
      · simp [vsay, vprint_eq, emit]
      · intro e he
        rcases List.mem_append.1 he with he | he
        · exact quiet_vprint _ _ _ ha e he
        · simp at he; subst he; exact hq
    · right
      simp only [hok, Bool.false_eq_true, if_false]
      refine ⟨rfl, by simp [handle_error_eq, vsay],
        (if st.opts.verbose then [.print announce announce] else []),
        ev false, message, env.errorStatus (emit (ev false) (vsay announce st)).trace, hf, ?_,
        quiet_vprint _ _ _ ha⟩
      rw [finish_and_exit_trace]
      simp [handle_error_eq, vsay, vprint_eq, emit]
  · left
    simp only [hr]
    exact negRunning_refl st

theorem negFailed_of_running {env : Env} {st : State} {o : Outcome} {k : State → Outcome}
    (h : NegRunning st o) (hk : NegFailed env o.st (k o.st)) : NegFailed env st (o.andThen k) := by
  obtain ⟨hs, cm, ip, evs, he, hq⟩ := h
  obtain ⟨ks, ko, pre, e, msg, code, hf, ht, hp⟩ := hk
  have : o.andThen k = k o.st := by unfold Outcome.andThen; rw [hs]
  rw [this]
  refine ⟨ks, ?_, evs ++ pre, e, msg, code, hf, ?_, ?_⟩
  · rw [ko, he]
  · rw [ht, he]; simp
  · intro x hx
    rcases List.mem_append.1 hx with hx | hx
    · exact hq x hx
    · exact hp x hx

theorem negRunning_trans {st : State} {o : Outcome} {k : State → Outcome}
    (h : NegRunning st o) (hk : NegRunning o.st (k o.st)) : NegRunning st (o.andThen k) := by
  obtain ⟨hs, cm, ip, evs, he, hq⟩ := h
  obtain ⟨ks, cm', ip', evs', he', hq'⟩ := hk
  have : o.andThen k = k o.st := by unfold Outcome.andThen; rw [hs]
  rw [this]
  refine ⟨ks, cm', ip', evs ++ evs', ?_, ?_⟩
  · rw [he', he]; simp
  · intro x hx
    rcases List.mem_append.1 hx with hx | hx
    · exact hq x hx
    · exact hq' x hx

theorem neg_step {env : Env} {st : State} {o : Outcome} {k : State → Outcome}
    (h : NegRunning st o ∨ NegFailed env st o)
    (hk : ∀ s, NegRunning s (k s) ∨ NegFailed env s (k s)) :
    NegRunning st (o.andThen k) ∨ NegFailed env st (o.andThen k) := by
  rcases h with h | h
  · rcases hk o.st with h' | h'
    · exact Or.inl (negRunning_trans h h')
    · exact Or.inr (negFailed_of_running h h')
  · right
    have : o.andThen k = o := by unfold Outcome.andThen; rw [h.1]
    rw [this]; exact h

theorem quiet_overrideMessages (o : Options) : ∀ e ∈ overrideMessages o, quiet e = true := by
  intro e he
  unfold overrideMessages at he
  simp only [List.mem_append] at he
  rcases he with (((((he | he) | he) | he) | he) | he) | he <;>
    (split at he <;> simp at he; subst he; rfl)

theorem quiet_filterMessages (o : Options) : ∀ e ∈ filterMessages o, quiet e = true := by
  intro e he
  unfold filterMessages at he
  simp only [List.mem_append] at he
  rcases he with ((he | he) | he) | he <;>
    (split at he <;> simp at he; subst he; rfl)

theorem applyParameters_running (st : State) : NegRunning st ⟨applyParameters st, .running⟩ := by
  refine ⟨rfl, applyOverrides st.opts st.cammode, applyFilterFlags st.opts st.imp_para,
    (if st.opts.verbose then overrideMessages st.opts ++ filterMessages st.opts else []), rfl, ?_⟩
  intro e he
  split at he
  · rcases List.mem_append.1 he with he | he
    · exact quiet_overrideMessages _ e he
    · exact quiet_filterMessages _ e he
  · simp at he

theorem writeParameters_cases (env : Env) (st : State) :
    NegRunning st (writeParameters env st) ∨ NegFailed env st (writeParameters env st) := by
  unfold writeParameters
  by_cases hok : env.scsiWriteParameter (vsay "Writing parameters...\n" st).trace
      (vsay "Writing parameters...\n" st).cammode = true
  · left
    simp only [hok, if_true]
    refine ⟨rfl, st.cammode, st.imp_para,
      (if st.opts.verbose then [.print "Writing parameters...\n" "Writing parameters...\n"]
        else []) ++ [.scsiWriteParameter st.cammode true], ?_, ?_⟩
    · simp [vsay, vprint_eq, emit]
    · intro e he
      rcases List.mem_append.1 he with he | he
      · exact quiet_vprint _ _ _ (by decide) e he
      · simp at he; subst he; rfl
  · right
    simp only [hok, Bool.false_eq_true, if_false]
    refine ⟨rfl, by simp [handle_error_eq, vsay],
      (if st.opts.verbose then [.print "Writing parameters...\n" "Writing parameters...\n"]
        else []),
      .scsiWriteParameter st.cammode false, "Write Camera Mode",
      env.errorStatus (emit (.scsiWriteParameter st.cammode false)
        (vsay "Writing parameters...\n" st)).trace, rfl, ?_, quiet_vprint _ _ _ (by decide)⟩
    rw [finish_and_exit_trace]
    simp [handle_error_eq, vsay, vprint_eq, emit]

theorem set_cammode_cases (env : Env) (st : State) :
    NegRunning st (set_cammode env st) ∨ NegFailed env st (set_cammode env st) := by
  unfold set_cammode
  refine neg_step (assist_cases env st.opts.passiveaf _ env.scsiPassiveAF .scsiPassiveAF
    "Passive AF" (by decide) rfl rfl st) fun s => ?_
  refine neg_step (assist_cases env s.opts.activeaf _ env.scsiActiveAF .scsiActiveAF
    "Active AF" (by decide) rfl rfl s) fun s => ?_
  refine neg_step (assist_cases env s.opts.activeafae _ env.scsiActiveAFAE910 .scsiActiveAFAE910
    "Active AF/AE" (by decide) rfl rfl s) fun s => ?_
  exact neg_step (k := writeParameters env) (o := ⟨applyParameters s, .running⟩)
    (Or.inl (applyParameters_running s)) (fun s => writeParameters_cases env s)

theorem get_cammode_eq (env : Env) (st : State) :
    get_cammode env st =
      if env.scsiInitialize (vsay "Initializing SCSI device...\n" st).trace = true then
        (Outcome.mk (emit (.scsiInitialize true) (vsay "Initializing SCSI device...\n" st))
          .running).andThen
          (assist env true "Reading camera parameters...\n" env.scsiReadParameter
            .scsiReadParameter "Read Camera Mode")
      else
        ⟨emit (.exit 1) (handle_error env "SCSI Initialize"
          (emit (.scsiInitialize false) (vsay "Initializing SCSI device...\n" st))), .exited⟩ := by
  unfold get_cammode
  by_cases hi : env.scsiInitialize (vsay "Initializing SCSI device...\n" st).trace = true
  · simp only [hi, if_true]; rfl
  · simp only [hi, Bool.false_eq_true, if_false]

theorem get_cammode_cases (env : Env) (st : State) :
    NegRunning st (get_cammode env st) ∨ NegFailed env st (get_cammode env st) ∨
      InitFailed env st (get_cammode env st) := by
  rw [get_cammode_eq]
  split
  · have h1 : NegRunning st
        ⟨emit (.scsiInitialize true) (vsay "Initializing SCSI device...\n" st), .running⟩ := by
      refine ⟨rfl, st.cammode, st.imp_para,
        (if st.opts.verbose then
            [.print "Initializing SCSI device...\n" "Initializing SCSI device...\n"] else [])
          ++ [.scsiInitialize true], ?_, ?_⟩
      · simp [vsay, vprint_eq, emit]
      · intro e he
        rcases List.mem_append.1 he with he | he
        · exact quiet_vprint _ _ _ (by decide) e he
        · simp at he; subst he; rfl
    rcases neg_step (k := assist env true "Reading camera parameters...\n" env.scsiReadParameter
      .scsiReadParameter "Read Camera Mode") (Or.inl h1) (fun s => assist_cases env true
      "Reading camera parameters...\n" env.scsiReadParameter
      .scsiReadParameter "Read Camera Mode" (by decide) rfl rfl s) with h | h
    · exact Or.inl h
    · exact Or.inr (Or.inl h)
  · right; right
    refine ⟨rfl, by simp [handle_error_eq, vsay],
      (if st.opts.verbose then
          [.print "Initializing SCSI device...\n" "Initializing SCSI device...\n"] else []),
      env.errorStatus (emit (.scsiInitialize false)
        (vsay "Initializing SCSI device...\n" st)).trace, ?_, ?_⟩
    · simp [handle_error_eq, vsay, vprint_eq, emit]
    · intro x hx
      split at hx <;> simp at hx
      subst hx; rfl

theorem negotiate_cases (env : Env) (st : State) :
    NegRunning st (negotiate env st) ∨ NegFailed env st (negotiate env st) ∨
      InitFailed env st (negotiate env st) := by
  unfold negotiate
  rcases get_cammode_cases env st with h | h | h
  · rcases neg_step (k := set_cammode env) (Or.inl h) (fun s => set_cammode_cases env s) with h' | h'
    · exact Or.inl h'
    · exact Or.inr (Or.inl h')
  · right; left
    have : (get_cammode env st).andThen (set_cammode env) = get_cammode env st := by
      unfold Outcome.andThen; rw [h.1]
    rw [this]; exact h
  · right; right
    have : (get_cammode env st).andThen (set_cammode env) = get_cammode env st := by
      unfold Outcome.andThen; rw [h.1]
    rw [this]; exact h

/-! ## Marks of the pieces of a run -/

theorem ite_ind {α : Type} (P : α → Prop) {c : Prop} [Decidable c] {a b : α} (ha : P a)
    (hb : P b) : P (if c then a else b) := by
  split <;> assumption

theorem errorText_ne (c : ErrorCodes) (n : Int) :
    errorText c n ≠ "Unknown format! Supported formats: TIFF\n" := by
  unfold errorText
  repeat' (first
    | exact (by decide)
    | refine ite_ind (fun s => s ≠ "Unknown format! Supported formats: TIFF\n") (by decide) ?_)

@[simp] theorem marks_nil : marks [] = [] := rfl

@[simp] theorem marks_append (a b : List Event) : marks (a ++ b) = marks a ++ marks b := by
  unfold marks; exact List.filterMap_append _ _ _

theorem marks_cons (e : Event) (l : List Event) :
    marks (e :: l) = (view e).toList ++ marks l := by
  unfold marks
  cases h : view e <;> simp [List.filterMap_cons, h]

theorem marks_vprint (b : Bool) (f t : String)
    (hf : f ≠ "Unknown format! Supported formats: TIFF\n") :
    marks (if b = true then [Event.print f t] else []) = [] := by
  cases b <;> simp [marks, view, hf]

theorem marks_diagnostic (c : ErrorCodes) (m : String) (n : Int) :
    marks (diagnostic c m n) = [] := by
  simp [diagnostic, marks, view, say, errorText_ne]

theorem marks_teardown (v cd : Bool) : marks (teardown v cd) = [] := by
  cases v <;> cases cd <;> simp [teardown, marks, view, say]

theorem marks_of_quiet (evs : List Event) (h : ∀ e ∈ evs, quiet e = true) :
    marks evs = [] := by
  induction evs with
  | nil => rfl
  | cons e l ih =>
    rw [marks_cons, ih (fun x hx => h x (List.mem_cons_of_mem _ hx))]
    have he := h e (List.mem_cons_self _ _)
    cases e <;> simp [quiet, view] at he ⊢
    simp [he]

theorem Yields.andThen {st : State} {o : Outcome} {k : State → Outcome} {ms ms' : List Mark}
    (h : Yields st o ms) (hk : Yields o.st (k o.st) ms') : Yields st (o.andThen k) (ms ++ ms') := by
  obtain ⟨hs, evs, he, hm⟩ := h
  obtain ⟨ks, evs', he', hm'⟩ := hk
  have : o.andThen k = k o.st := by unfold Outcome.andThen; rw [hs]
  rw [this]
  refine ⟨ks, evs ++ evs', ?_, ?_⟩
  · rw [he', he]; simp
  · rw [marks_append, hm, hm']

theorem perform_release_yields (env : Env) (hc : CaptureNotFatal env) (st : State) :
    Yields st (perform_release env st) [.captured] := by
  unfold perform_release
  by_cases hd : st.opts.dynrangeexp = true
  · simp only [hd, if_true]
    have hne := hc (vsay "Using dynamic range expansion...\n" st).trace st.cammode.distance
      st.cammode.laserPower st.cammode.gain
    simp only [vsay, vprint_cammode] at hne ⊢
    generalize hr : env.scsiScanRead910 _ _ _ _ = r at hne ⊢
    cases r with
    | illegal => exact absurd rfl hne
    | vfalse =>
      refine ⟨rfl, ?_⟩
      simp only [handle_error_eq, vprint_eq, emit]
      exact ⟨_, by simp only [List.append_assoc]; rfl,
        by simp [marks_vprint, marks_diagnostic, marks_cons, view]⟩
    | done =>
      refine ⟨rfl, (if st.opts.verbose then [.print "Using dynamic range expansion...\n"
        "Using dynamic range expansion...\n"] else []) ++
        [.scsiScanRead910 st.cammode.distance st.cammode.laserPower st.cammode.gain .done], ?_, ?_⟩
      · simp [vprint_eq, emit]
      · simp [marks_vprint, marks_cons, view]
  · simp only [hd, Bool.false_eq_true, if_false]
    refine ⟨rfl, ?_⟩
    simp only [handle_error_eq, emit]
    split <;> split <;> split <;>
      exact ⟨_, by simp only [List.append_assoc]; rfl,
        by simp [marks_diagnostic, marks_cons, view]⟩

theorem marks_writeRow (buffer : List Nat) (n p : Nat) : marks (writeRow buffer n p) = [] := by
  induction n generalizing p with
  | zero => rfl
  | succ n ih => simp [writeRow, marks_cons, view, ih]

theorem marks_writeRows (v : Bool) (buffer : List Nat) (n p : Nat) :
    marks (writeRows v buffer n p) = [] := by
  induction n generalizing p with
  | zero => rfl
  | succ n ih =>
    simp only [writeRows, marks_append, ih, marks_writeRow, List.append_nil]
    exact marks_vprint v _ _ (by decide)

theorem marks_scanFile (v : Bool) (buffer : List Nat) : marks (scanFile v buffer) = [] := by
  unfold scanFile
  simp only [marks_append, marks_writeRows, say]
  rw [marks_vprint v _ _ (by decide), marks_vprint v _ _ (by decide),
    marks_vprint v _ _ (by decide)]
  simp [marks, view, scanHeader]

theorem scanWrite_yields (env : Env) (ho : FopenSucceeds env) (st : State) :
    Yields st (scanWrite env st) [.opened st.filename] := by
  unfold scanWrite
  simp only [ho _ _, if_true, vprint_filename, vprint_opts, emit_opts, emit_filename]
  refine ⟨rfl, ?_⟩
  simp only [vprint_eq, emit]
  exact ⟨_, by simp only [List.append_assoc]; rfl,
    by simp [marks_vprint, marks_scanFile, marks_cons, view]⟩

theorem marks_tiffFields (image : Image) : marks (tiffFields image) = [] := by
  simp [tiffFields, marks, view]

theorem imageWrite_yields (env : Env) (image : Image) (st : State)
    (ho : st.opts.format = "TIFF" → TiffOpenSucceeds env) :
    Yields st (imageWrite env image st)
      [if st.opts.format = "TIFF" then .opened st.filename else .unsupported] := by
  unfold imageWrite
  by_cases hf : st.opts.format = "TIFF"
  · simp only [hf, if_true, ho hf _ _, vprint_filename, vprint_opts, emit_opts, emit_filename]
    refine ⟨rfl, ?_⟩
    simp only [vprint_eq, emit]
    exact ⟨_, by simp only [List.append_assoc]; rfl,
      by simp [marks_vprint, marks_cons, view, marks_tiffFields]⟩
  · simp only [hf, if_false]
    exact ⟨rfl, _, rfl, by simp [marks, view, say]⟩

theorem pickup_state (env : Env) (st : State) :
    Yields st
      ⟨vprint "ImageType: %d, Width: %d, Height: %d\n"
        ("ImageType: " ++ fmtInt (env.pickupColorImage st.trace).2.attr ++ ", Width: "
          ++ fmtInt (env.pickupColorImage st.trace).2.width
          ++ ", Height: " ++ fmtInt (env.pickupColorImage st.trace).2.height ++ "\n")
        (if (env.pickupColorImage st.trace).1 = true
          then emit (.pickupColorImage (env.pickupColorImage st.trace).1) st
          else handle_error env "Pickup Color Image"
            (emit (.pickupColorImage (env.pickupColorImage st.trace).1) st)), .running⟩
      [.pickedUp] := by
  refine ⟨rfl, ?_⟩
  simp only [handle_error_eq, vprint_eq, emit]
  split <;>
    exact ⟨_, by simp only [List.append_assoc]; rfl,
      by simp [marks_vprint, marks_diagnostic, marks_cons, view]⟩

theorem imagePickup_yields (env : Env) (st : State)
    (ho : st.opts.format = "TIFF" → TiffOpenSucceeds env) :
    Yields st (imagePickup env st)
      [.pickedUp, if st.opts.format = "TIFF" then .opened st.filename else .unsupported] := by
  have h1 := pickup_state env st
  have hw := imageWrite_yields env (env.pickupColorImage st.trace).2
    (vprint "ImageType: %d, Width: %d, Height: %d\n"
        ("ImageType: " ++ fmtInt (env.pickupColorImage st.trace).2.attr ++ ", Width: "
          ++ fmtInt (env.pickupColorImage st.trace).2.width
          ++ ", Height: " ++ fmtInt (env.pickupColorImage st.trace).2.height ++ "\n")
        (if (env.pickupColorImage st.trace).1 = true
          then emit (.pickupColorImage (env.pickupColorImage st.trace).1) st
          else handle_error env "Pickup Color Image"
            (emit (.pickupColorImage (env.pickupColorImage st.trace).1) st)))
  have e1 : ∀ (f t : String), (vprint f t
        (if (env.pickupColorImage st.trace).1 = true
          then emit (.pickupColorImage (env.pickupColorImage st.trace).1) st
          else handle_error env "Pickup Color Image"
            (emit (.pickupColorImage (env.pickupColorImage st.trace).1) st))).opts = st.opts := by
    intro f t; rw [vprint_opts]; split <;> rfl
  have e2 : ∀ (f t : String), (vprint f t
        (if (env.pickupColorImage st.trace).1 = true
          then emit (.pickupColorImage (env.pickupColorImage st.trace).1) st
          else handle_error env "Pickup Color Image"
            (emit (.pickupColorImage (env.pickupColorImage st.trace).1) st))).filename
        = st.filename := by
    intro f t; rw [vprint_filename]; split <;> rfl
  rw [e1, e2] at hw
  exact Yields.andThen h1 (hw ho)

theorem rotate_eq (i : Int) (st : State) :
    ∃ evs, rotate i st =
      { st with filename := st.opts.output.getD "" ++ fmtInt i ++ "." ++ st.opts.format,
                trace := st.trace ++ evs } ∧
      marks evs = [.rotated (stageCommand st.opts.start)] := by
  unfold rotate
  simp only [vprint_eq, emit]
  exact ⟨_, by simp only [List.append_assoc]; rfl, by simp [marks_vprint, marks_cons, view]⟩

theorem body_spec (env : Env) (hc : CaptureNotFatal env) (k : State → Outcome)
    (tail : String → String → List Mark)
    (i : Int) (st : State)
    (hk : ∀ s, s.opts.format = st.opts.format → Yields s (k s) (tail s.opts.format s.filename)) :
    ((perform_release env (if st.opts.count > 1 then rotate i st else st)).andThen k).status
        = .running ∧
    ∃ evs, ((perform_release env (if st.opts.count > 1 then rotate i st else st)).andThen k).st =
        { st with
          filename := if st.opts.count > 1
            then st.opts.output.getD "" ++ fmtInt i ++ "." ++ st.opts.format else st.filename,
          trace := st.trace ++ evs } ∧
      marks evs = shotMarks st.opts.count (st.opts.output.getD "") st.opts.format st.filename
        tail i st.opts.start := by
  unfold shotMarks
  by_cases hn : st.opts.count > 1
  · simp only [hn, if_true]
    obtain ⟨e1, hr, hm1⟩ := rotate_eq i st
    have h0 : (perform_release env (rotate i st)).st.opts = st.opts := by
      obtain ⟨-, e3, he3, -⟩ := perform_release_yields env hc (rotate i st)
      rw [he3, hr]
    have h := Yields.andThen (perform_release_yields env hc (rotate i st))
      (hk _ (by rw [h0]))
    obtain ⟨hs, e2, he, hm2⟩ := h
    refine ⟨hs, e1 ++ e2, ?_, ?_⟩
    · rw [he, hr]; simp
    · rw [marks_append, hm1, hm2]
      have h1 : (perform_release env (rotate i st)).st.opts = st.opts := by
        obtain ⟨-, e3, he3, -⟩ := perform_release_yields env hc (rotate i st)
        rw [he3, hr]
      have h2 : (perform_release env (rotate i st)).st.filename =
          st.opts.output.getD "" ++ fmtInt i ++ "." ++ st.opts.format := by
        obtain ⟨-, e3, he3, -⟩ := perform_release_yields env hc (rotate i st)
        rw [he3, hr]
      rw [h1, h2]; rfl
  · simp only [hn, if_false]
    have h0 : (perform_release env st).st.opts = st.opts := by
      obtain ⟨-, e3, he3, -⟩ := perform_release_yields env hc st
      rw [he3]
    have h := Yields.andThen (perform_release_yields env hc st) (hk _ (by rw [h0]))
    obtain ⟨hs, e2, he, hm2⟩ := h
    refine ⟨hs, e2, he, ?_⟩
    rw [hm2]
    have h1 : (perform_release env st).st.opts = st.opts := by
      obtain ⟨-, e3, he3, -⟩ := perform_release_yields env hc st
      rw [he3]
    have h2 : (perform_release env st).st.filename = st.filename := by
      obtain ⟨-, e3, he3, -⟩ := perform_release_yields env hc st
      rw [he3]
    rw [h1, h2]; rfl

theorem advance_eq (st : State) (h : st.opts.count ≠ 0) :
    advance st = ⟨{ st with opts := { st.opts with
      start := st.opts.start + Int.tdiv 360 st.opts.count } }, .running⟩ := by
  unfold advance; simp [h]

theorem loop_spec (L : Nat → Int → State → Outcome) (body : Int → State → Outcome)
    (h0 : ∀ i st, L 0 i st =
      if i ≤ st.opts.count then ⟨st, .outOfFuel⟩ else ⟨st, .running⟩)
    (hS : ∀ fuel i st, L (fuel + 1) i st =
      if i ≤ st.opts.count then ((body i st).andThen advance).andThen (L fuel (i + 1))
      else ⟨st, .running⟩)
    (tail : String → String → List Mark)
    (count : Int) (base format fname : String)
    (hbody : ∀ i st, st.opts.format = format → (body i st).status = .running ∧
      ∃ evs, (body i st).st =
        { st with
          filename := if st.opts.count > 1
            then st.opts.output.getD "" ++ fmtInt i ++ "." ++ st.opts.format else st.filename,
          trace := st.trace ++ evs } ∧
      marks evs = shotMarks st.opts.count (st.opts.output.getD "") st.opts.format st.filename
        tail i st.opts.start) :
    ∀ (n fuel : Nat) (i : Int) (st : State), 1 ≤ i → count = i + n - 1 → n ≤ fuel →
      st.opts.count = count → st.opts.output.getD "" = base → st.opts.format = format →
      (¬ count > 1 → st.filename = fname) →
      (L fuel i st).status = .running ∧
      ∃ evs fn, (L fuel i st).st =
          { st with
            opts := { st.opts with start := st.opts.start + n * Int.tdiv 360 count },
            filename := fn, trace := st.trace ++ evs } ∧
        marks evs = ((List.range n).map fun (j : Nat) =>
          shotMarks count base format fname tail (i + (j : Int))
            (st.opts.start + (j : Int) * Int.tdiv 360 count)).flatten := by
  intro n
  induction n with
  | zero =>
    intro fuel i st hi hcnt _ hc _ _ _
    have hgt : ¬ i ≤ st.opts.count := by rw [hc, hcnt]; simp
    have hL : L fuel i st = ⟨st, .running⟩ := by
      cases fuel with
      | zero => rw [h0, if_neg hgt]
      | succ f => rw [hS, if_neg hgt]
    rw [hL]
    exact ⟨rfl, [], st.filename, by simp, by simp⟩
  | succ n ih =>
    intro fuel i st hi hcnt hfuel hc hb hf hfn
    have hle : i ≤ st.opts.count := by rw [hc, hcnt]; push_cast; omega
    have hnz : st.opts.count ≠ 0 := by omega
    obtain ⟨f, rfl⟩ : ∃ f, fuel = f + 1 := ⟨fuel - 1, by omega⟩
    obtain ⟨hbs, e1, hbe, hbm⟩ := hbody i st hf
    rw [hS, if_pos hle]
    have hstep : (body i st).andThen advance = advance (body i st).st := by
      unfold Outcome.andThen; rw [hbs]
    rw [hstep, hbe, advance_eq _ (by exact hnz)]
    have hrun : ∀ s : State, (Outcome.mk s .running).andThen (L f (i + 1)) = L f (i + 1) s :=
      fun s => rfl
    rw [hrun]
    obtain ⟨hs2, e2, fn, he2, hm2⟩ := ih f (i + 1)
      { opts := { st.opts with start := st.opts.start + Int.tdiv 360 st.opts.count },
        cammode := st.cammode, imp_para := st.imp_para, camdata := st.camdata,
        filename := if st.opts.count > 1
          then st.opts.output.getD "" ++ fmtInt i ++ "." ++ st.opts.format else st.filename,
        trace := st.trace ++ e1 }
      (by omega) (by rw [hcnt]; push_cast; ring) (by omega) hc hb hf
      (by
        intro hgt
        simp only
        rw [hc, if_neg hgt]
        exact hfn hgt)
    refine ⟨hs2, e1 ++ e2, fn, ?_, ?_⟩
    · rw [he2]
      simp only [List.append_assoc, hc]
      congr 2
      push_cast
      ring
    · rw [marks_append, hbm, hm2, List.range_succ_eq_map, List.map_cons, List.flatten_cons,
        List.map_map]
      congr 1
      · rw [hc, hb, hf]
        unfold shotMarks
        by_cases hgt : count > 1
        · simp [hgt]
        · simp [hgt, hfn hgt]
      · congr 1
        apply List.map_congr_left
        intro j _
        simp only [Function.comp, hc]
        congr 1
        · push_cast; ring
        · push_cast; ring

theorem scanBody_spec (env : Env) (hc : CaptureNotFatal env) (ho : FopenSucceeds env)
    (i : Int) (st : State) :
    (scanBody env i st).status = .running ∧
    ∃ evs, (scanBody env i st).st =
        { st with
          filename := if st.opts.count > 1
            then st.opts.output.getD "" ++ fmtInt i ++ "." ++ st.opts.format else st.filename,
          trace := st.trace ++ evs } ∧
      marks evs = shotMarks st.opts.count (st.opts.output.getD "") st.opts.format st.filename
        (fun _ fn => [.opened fn]) i st.opts.start :=
  body_spec env hc (scanWrite env) (fun _ fn => [.opened fn]) i st
    (fun s _ => scanWrite_yields env ho s)

theorem imageBody_spec (env : Env) (hc : CaptureNotFatal env) (format : String)
    (ho : format = "TIFF" → TiffOpenSucceeds env) (i : Int) (st : State)
    (hf : st.opts.format = format) :
    (imageBody env i st).status = .running ∧
    ∃ evs, (imageBody env i st).st =
        { st with
          filename := if st.opts.count > 1
            then st.opts.output.getD "" ++ fmtInt i ++ "." ++ st.opts.format else st.filename,
          trace := st.trace ++ evs } ∧
      marks evs = shotMarks st.opts.count (st.opts.output.getD "") st.opts.format st.filename
        (fun fmt fn => [.pickedUp, if fmt = "TIFF" then .opened fn else .unsupported])
        i st.opts.start :=
  body_spec env hc (imagePickup env)
    (fun fmt fn => [.pickedUp, if fmt = "TIFF" then .opened fn else .unsupported]) i st
    (fun s hs => imagePickup_yields env s (fun h => ho (by rw [← hf, ← hs, h])))

theorem negotiate_status (env : Env) (hn : NegotiationSucceeds env) (st : State) :
    (negotiate env st).status = .running := by
  simp only [negotiate, get_cammode, set_cammode, assist, writeParameters, Outcome.andThen,
    hn.init, hn.read, hn.passive, hn.active, hn.activeAE, hn.write, if_true]
  repeat' split
  all_goals rfl

theorem negotiate_running (env : Env) (hn : NegotiationSucceeds env) (st : State) :
    NegRunning st (negotiate env st) := by
  rcases negotiate_cases env st with h | h | h
  · exact h
  · have := negotiate_status env hn st
    rw [h.1] at this; cases this
  · have := negotiate_status env hn st
    rw [h.1] at this; cases this

/-! ## The loops make no negotiation call -/

theorem grows_refl (p : Event → Bool) (t : List Event) : Grows p t t := ⟨[], by simp, rfl⟩

theorem Grows.trans {p : Event → Bool} {a b c : List Event} (h : Grows p a b)
    (h' : Grows p b c) : Grows p a c := by
  obtain ⟨evs, h2, h3⟩ := h
  obtain ⟨evs', g2, g3⟩ := h'
  exact ⟨evs ++ evs', by rw [g2, h2, List.append_assoc], by rw [List.all_append, h3, g3]; rfl⟩

theorem grows_append (p : Event → Bool) (t evs : List Event) (h : evs.all p = true) :
    Grows p t (t ++ evs) := ⟨evs, rfl, h⟩

theorem grows_emit {p : Event → Bool} {t : List Event} {st : State} (e : Event)
    (h : Grows p t st.trace) (he : p e = true) : Grows p t (emit e st).trace :=
  h.trans (grows_append p _ [e] (by simp [he]))

theorem grows_vprint {p : Event → Bool} {t : List Event} {st : State} (f x : String)
    (hp : ∀ a b, p (.print a b) = true) (h : Grows p t st.trace) :
    Grows p t (vprint f x st).trace := by
  unfold vprint
  split
  · exact grows_emit _ h (hp _ _)
  · exact h

theorem all_diagnostic (p : Event → Bool) (hp : ∀ a b, p (.print a b) = true)
    (hq : ∀ n, p (.getErrorStatus n) = true) (c : ErrorCodes) (m : String) (n : Int) :
    (diagnostic c m n).all p = true := by
  simp [diagnostic, say, hp, hq]

theorem all_teardown (p : Event → Bool) (hp : ∀ a b, p (.print a b) = true)
    (h1 : p .scsiFinish = true) (h2 : p .freeCameraData = true) (h3 : ∀ n, p (.exit n) = true)
    (v cd : Bool) : (teardown v cd).all p = true := by
  cases v <;> cases cd <;> simp [teardown, say, hp, h1, h2, h3]

theorem grows_handle_error {p : Event → Bool} {t : List Event} {st : State} (env : Env)
    (m : String) (hp : ∀ a b, p (.print a b) = true) (hq : ∀ n, p (.getErrorStatus n) = true)
    (h : Grows p t st.trace) : Grows p t (handle_error env m st).trace :=
  h.trans (grows_append p _ _ (all_diagnostic p hp hq _ _ _))

theorem grows_finish {p : Event → Bool} {t : List Event} {st : State}
    (hp : ∀ a b, p (.print a b) = true)
    (h1 : p .scsiFinish = true) (h2 : p .freeCameraData = true) (h3 : ∀ n, p (.exit n) = true)
    (h : Grows p t st.trace) : Grows p t (finish_and_exit st).st.trace := by
  rw [finish_and_exit_trace]
  exact h.trans (grows_append p _ _ (all_teardown p hp h1 h2 h3 _ _))

theorem off_vprint (b : Bool) (f t : String) :
    (if b = true then [Event.print f t] else []).all offNegotiation = true := by
  cases b <;> rfl

theorem off_writeRow (buffer : List Nat) (n p : Nat) :
    (writeRow buffer n p).all offNegotiation = true := by
  induction n generalizing p with
  | zero => rfl
  | succ n ih => simp only [writeRow, List.all_cons, ih]; rfl

theorem off_writeRows (v : Bool) (buffer : List Nat) (n p : Nat) :
    (writeRows v buffer n p).all offNegotiation = true := by
  induction n generalizing p with
  | zero => rfl
  | succ n ih =>
    simp only [writeRows, List.all_append, ih, off_writeRow, say, off_vprint]; rfl

theorem off_scanFile (v : Bool) (buffer : List Nat) :
    (scanFile v buffer).all offNegotiation = true := by
  unfold scanFile
  simp only [List.all_append, off_writeRows, say, off_vprint]; rfl

theorem grows_andThen {p : Event → Bool} {t : List Event} {o : Outcome} {k : State → Outcome}
    (h : Grows p t o.st.trace) (hk : ∀ s, Grows p s.trace (k s).st.trace) :
    Grows p t (o.andThen k).st.trace := by
  unfold Outcome.andThen
  split
  · exact h.trans (hk _)
  · exact h

theorem perform_release_grows (env : Env) (st : State) :
    Grows offNegotiation st.trace (perform_release env st).st.trace := by
  unfold perform_release
  dsimp only
  split
  · split
    · exact grows_finish (fun _ _ => rfl) rfl rfl (fun _ => rfl)
        (grows_emit _ (grows_emit _ (grows_vprint _ _ (fun _ _ => rfl) (grows_refl _ _)) rfl) rfl)
    · exact grows_handle_error _ _ (fun _ _ => rfl) (fun _ => rfl)
        (grows_emit _ (grows_vprint _ _ (fun _ _ => rfl) (grows_refl _ _)) rfl)
    · exact grows_emit _ (grows_vprint _ _ (fun _ _ => rfl) (grows_refl _ _)) rfl
  · have h1 : Grows offNegotiation st.trace
        (if env.scsiRelease st.trace = true then emit (.scsiRelease (env.scsiRelease st.trace)) st
          else handle_error env "Release"
            (emit (.scsiRelease (env.scsiRelease st.trace)) st)).trace := by
      split
      · exact grows_emit _ (grows_refl _ _) rfl
      · exact grows_handle_error _ _ (fun _ _ => rfl) (fun _ => rfl)
          (grows_emit _ (grows_refl _ _) rfl)
    generalize (if env.scsiRelease st.trace = true then
      emit (.scsiRelease (env.scsiRelease st.trace)) st
      else handle_error env "Release" (emit (.scsiRelease (env.scsiRelease st.trace)) st)) = s1
      at h1 ⊢
    have h2 : Grows offNegotiation st.trace
        (if env.scsiReadPitch s1.trace = true then emit (.scsiReadPitch (env.scsiReadPitch s1.trace)) s1
          else handle_error env "Read Pitch"
            (emit (.scsiReadPitch (env.scsiReadPitch s1.trace)) s1)).trace := by
      split
      · exact grows_emit _ h1 rfl
      · exact grows_handle_error _ _ (fun _ _ => rfl) (fun _ => rfl) (grows_emit _ h1 rfl)
    generalize (if env.scsiReadPitch s1.trace = true then
      emit (.scsiReadPitch (env.scsiReadPitch s1.trace)) s1
      else handle_error env "Read Pitch" (emit (.scsiReadPitch (env.scsiReadPitch s1.trace)) s1))
      = s2 at h2 ⊢
    split
    · exact grows_emit _ h2 rfl
    · exact grows_handle_error _ _ (fun _ _ => rfl) (fun _ => rfl) (grows_emit _ h2 rfl)

theorem rotate_grows (i : Int) (st : State) :
    Grows offNegotiation st.trace (if st.opts.count > 1 then rotate i st else st).trace := by
  split
  · exact grows_emit _ (grows_vprint _ _ (fun _ _ => rfl) (grows_refl _ _)) rfl
  · exact grows_refl _ _

theorem scanWrite_grows (env : Env) (st : State) :
    Grows offNegotiation st.trace (scanWrite env st).st.trace := by
  unfold scanWrite
  dsimp only
  split
  · refine Grows.trans ?_ (grows_append _ _ _ (off_scanFile _ _))
    exact grows_emit _ (grows_vprint _ _ (fun _ _ => rfl) (grows_refl _ _)) rfl
  · exact grows_finish (fun _ _ => rfl) rfl rfl (fun _ => rfl)
      (grows_emit _ (grows_emit _ (grows_vprint _ _ (fun _ _ => rfl) (grows_refl _ _)) rfl) rfl)

theorem imageWrite_grows (env : Env) (image : Image) (st : State) :
    Grows offNegotiation st.trace (imageWrite env image st).st.trace := by
  unfold imageWrite
  dsimp only
  split
  · split
    · refine grows_emit _ (grows_emit _ (grows_emit _
        (grows_vprint _ _ (fun _ _ => rfl) ?_) rfl) rfl) rfl
      refine Grows.trans ?_ (grows_append _ _ (tiffFields image) rfl)
      exact grows_emit _ (grows_vprint _ _ (fun _ _ => rfl) (grows_refl _ _)) rfl
    · exact grows_finish (fun _ _ => rfl) rfl rfl (fun _ => rfl)
        (grows_emit _ (grows_emit _ (grows_vprint _ _ (fun _ _ => rfl) (grows_refl _ _)) rfl) rfl)
  · exact grows_emit _ (grows_refl _ _) rfl

theorem imagePickup_grows (env : Env) (st : State) :
    Grows offNegotiation st.trace (imagePickup env st).st.trace := by
  unfold imagePickup
  dsimp only
  refine Grows.trans ?_ (imageWrite_grows env _ _)
  apply grows_vprint _ _ (fun _ _ => rfl)
  split
  · exact grows_emit _ (grows_refl _ _) rfl
  · exact grows_handle_error _ _ (fun _ _ => rfl) (fun _ => rfl) (grows_emit _ (grows_refl _ _) rfl)

theorem advance_grows (st : State) : Grows offNegotiation st.trace (advance st).st.trace := by
  unfold advance
  split <;> exact grows_refl _ _

theorem scanBody_grows (env : Env) (i : Int) (st : State) :
    Grows offNegotiation st.trace (scanBody env i st).st.trace := by
  unfold scanBody
  exact grows_andThen ((rotate_grows i st).trans (perform_release_grows env _))
    (scanWrite_grows env)

theorem imageBody_grows (env : Env) (i : Int) (st : State) :
    Grows offNegotiation st.trace (imageBody env i st).st.trace := by
  unfold imageBody
  exact grows_andThen ((rotate_grows i st).trans (perform_release_grows env _))
    (imagePickup_grows env)

theorem scanLoop_grows (env : Env) (fuel : Nat) : ∀ (i : Int) (st : State),
    Grows offNegotiation st.trace (scanLoop env fuel i st).st.trace := by
  induction fuel with
  | zero => intro i st; unfold scanLoop; split <;> exact grows_refl _ _
  | succ f ih =>
    intro i st
    unfold scanLoop
    split
    · exact grows_andThen (grows_andThen (scanBody_grows env i st) advance_grows) (ih (i + 1))
    · exact grows_refl _ _

theorem imageLoop_grows (env : Env) (fuel : Nat) : ∀ (i : Int) (st : State),
    Grows offNegotiation st.trace (imageLoop env fuel i st).st.trace := by
  induction fuel with
  | zero => intro i st; unfold imageLoop; split <;> exact grows_refl _ _
  | succ f ih =>
    intro i st
    unfold imageLoop
    split
    · exact grows_andThen (grows_andThen (imageBody_grows env i st) advance_grows) (ih (i + 1))
    · exact grows_refl _ _

theorem run_eq (env : Env) (c : Command) (o : Options) :
    run env c o = (negotiate env (entryState env c o)).andThen (continuation env c) := by
  cases c <;> rfl

theorem entryState_trace (env : Env) (c : Command) (o : Options) : (entryState env c o).trace = [] := by
  cases c <;> rfl

theorem entryState_verbose (env : Env) (c : Command) (o : Options) :
    (entryState env c o).opts.verbose = o.verbose := by
  cases c <;> rfl

theorem entryState_camdata (env : Env) (c : Command) (o : Options) :
    (entryState env c o).camdata = (c != .status) := by
  cases c <;> rfl

theorem continuation_grows (env : Env) (c : Command) (st : State) :
    Grows offNegotiation st.trace (continuation env c st).st.trace := by
  cases c with
  | status =>
    exact grows_finish (fun _ _ => rfl) rfl rfl (fun _ => rfl) (grows_append _ _ _ rfl)
  | scan =>
    exact grows_andThen (scanLoop_grows env _ 1 st)
      (fun s => grows_finish (fun _ _ => rfl) rfl rfl (fun _ => rfl) (grows_refl _ _))
  | image =>
    exact grows_andThen (imageLoop_grows env _ 1 st)
      (fun s => grows_finish (fun _ _ => rfl) rfl rfl (fun _ => rfl) (grows_refl _ _))

theorem failedStep_of_quiet {e : Event} (h : quiet e = true) : failedStep e = none := by
  cases e with
  | scsiReadParameter b => cases b <;> first | rfl | simp [quiet] at h
  | scsiPassiveAF b => cases b <;> first | rfl | simp [quiet] at h
  | scsiActiveAF b => cases b <;> first | rfl | simp [quiet] at h
  | scsiActiveAFAE910 b => cases b <;> first | rfl | simp [quiet] at h
  | scsiWriteParameter m b => cases b <;> first | rfl | simp [quiet] at h
  | _ => rfl

theorem failedStep_of_off {e : Event} (h : offNegotiation e = true) : failedStep e = none := by
  cases e <;> first | rfl | simp [offNegotiation, kind] at h

theorem failedStep_of_all_off {evs : List Event} (h : evs.all offNegotiation = true)
    {e : Event} (he : e ∈ evs) : failedStep e = none :=
  failedStep_of_off (List.all_eq_true.1 h e he)

theorem off_diagnostic (c : ErrorCodes) (m : String) (n : Int) :
    (diagnostic c m n).all offNegotiation = true := rfl

theorem off_teardown (v cd : Bool) : (teardown v cd).all offNegotiation = true := by
  cases v <;> cases cd <;> rfl

theorem count_finish_of_quiet (pre : List Event) (h : ∀ x ∈ pre, quiet x = true) :
    pre.count .scsiFinish = 0 := by
  apply List.count_eq_zero_of_not_mem
  intro hm
  have := h _ hm
  simp [quiet] at this

theorem count_finish_diagnostic (c : ErrorCodes) (m : String) (n : Int) :
    (diagnostic c m n).count .scsiFinish = 0 := by
  apply List.count_eq_zero_of_not_mem
  simp [diagnostic, say]

theorem count_finish_teardown (v cd : Bool) : (teardown v cd).count .scsiFinish = 1 := by
  cases v <;> cases cd <;> decide

theorem assist_grows (p : Event → Bool) (hp : ∀ a b, p (.print a b) = true)
    (hq : ∀ n, p (.getErrorStatus n) = true)
    (h1 : p .scsiFinish = true) (h2 : p .freeCameraData = true) (h3 : ∀ n, p (.exit n) = true)
    (env : Env) (requested : Bool) (announce : String)
    (call : List Event → CameraMode → Bool × CameraMode) (ev : Bool → Event) (message : String)
    (hev : ∀ b, p (ev b) = true) (st : State) :
    Grows p st.trace (assist env requested announce call ev message st).st.trace := by
  unfold assist
  dsimp only
  split
  · have h : Grows p st.trace (emit (ev (call (vsay announce st).trace
        (vsay announce st).cammode).1) (vsay announce st)).trace :=
      grows_emit _ (grows_vprint _ _ hp (grows_refl _ _)) (hev _)
    split
    · exact h
    · exact grows_finish hp h1 h2 h3 (grows_handle_error _ _ hp hq h)
  · exact grows_refl _ _

theorem all_vprint (p : Event → Bool) (hp : ∀ a b, p (.print a b) = true) (b : Bool)
    (f t : String) : (if b = true then [Event.print f t] else []).all p = true := by
  cases b <;> simp [hp]

theorem all_overrideMessages (p : Event → Bool) (hp : ∀ a b, p (.print a b) = true)
    (o : Options) : (overrideMessages o).all p = true := by
  unfold overrideMessages
  simp only [List.all_append, Bool.and_eq_true]
  refine ⟨⟨⟨⟨⟨⟨?_, ?_⟩, ?_⟩, ?_⟩, ?_⟩, ?_⟩, ?_⟩ <;> (split <;> simp [hp])

theorem all_filterMessages (p : Event → Bool) (hp : ∀ a b, p (.print a b) = true)
    (o : Options) : (filterMessages o).all p = true := by
  unfold filterMessages
  simp only [List.all_append, Bool.and_eq_true]
  refine ⟨⟨⟨?_, ?_⟩, ?_⟩, ?_⟩ <;> (split <;> simp [hp, say])

theorem set_cammode_grows (p : Event → Bool) (hp : ∀ a b, p (.print a b) = true)
    (hq : ∀ n, p (.getErrorStatus n) = true)
    (h1 : p .scsiFinish = true) (h2 : p .freeCameraData = true) (h3 : ∀ n, p (.exit n) = true)
    (hn : ∀ e, kind e = .negotiation → p e = true) (env : Env) (st : State) :
    Grows p st.trace (set_cammode env st).st.trace := by
  unfold set_cammode
  refine grows_andThen (assist_grows p hp hq h1 h2 h3 env st.opts.passiveaf
    "Performing Passive AF...\n" env.scsiPassiveAF .scsiPassiveAF "Passive AF"
    (fun b => hn _ rfl) st) fun s => ?_
  refine grows_andThen (assist_grows p hp hq h1 h2 h3 env s.opts.activeaf
    "Performing Active AF...\n" env.scsiActiveAF .scsiActiveAF "Active AF"
    (fun b => hn _ rfl) s) fun s => ?_
  refine grows_andThen (assist_grows p hp hq h1 h2 h3 env s.opts.activeafae
    "Performing Active AF/AE...\n" env.scsiActiveAFAE910 .scsiActiveAFAE910 "Active AF/AE"
    (fun b => hn _ rfl) s) fun s => ?_
  unfold writeParameters
  dsimp only
  have h : Grows p s.trace (applyParameters s).trace := by
    refine grows_append p _ _ ?_
    split
    · rw [List.all_append, all_overrideMessages p hp, all_filterMessages p hp]; rfl
    · rfl
  have h' := grows_emit (.scsiWriteParameter (vsay "Writing parameters...\n"
      (applyParameters s)).cammode (env.scsiWriteParameter
        (vsay "Writing parameters...\n" (applyParameters s)).trace
        (vsay "Writing parameters...\n" (applyParameters s)).cammode))
    (grows_vprint "Writing parameters...\n" "Writing parameters...\n" hp h) (hn _ rfl)
  split
  · exact h'
  · exact grows_finish hp h1 h2 h3 (grows_handle_error _ _ hp hq h')

theorem negotiate_session (env : Env) (st : State) :
    ∃ pre b post, (negotiate env st).st.trace = st.trace ++ pre ++ .scsiInitialize b :: post ∧
      pre.all offSession = true ∧ post.all offSession = true := by
  unfold negotiate
  rw [get_cammode_eq]
  split
  · have h0 : ∀ s : State, Grows offSession s.trace
        ((assist env true "Reading camera parameters...\n" env.scsiReadParameter
          .scsiReadParameter "Read Camera Mode" s).andThen (set_cammode env)).st.trace :=
      fun s => grows_andThen
        (assist_grows offSession (fun _ _ => rfl) (fun _ => rfl) rfl rfl (fun _ => rfl) env true
          "Reading camera parameters...\n" env.scsiReadParameter .scsiReadParameter
          "Read Camera Mode" (fun _ => rfl) s)
        (fun s => set_cammode_grows offSession (fun _ _ => rfl) (fun _ => rfl) rfl rfl
          (fun _ => rfl) (fun e he => by simp [offSession, he]) env s)
    obtain ⟨post, hpost, hall⟩ := h0 (emit (.scsiInitialize true)
      (vsay "Initializing SCSI device...\n" st))
    refine ⟨if st.opts.verbose then [.print "Initializing SCSI device...\n"
      "Initializing SCSI device...\n"] else [], true, post, ?_, all_vprint _ (fun _ _ => rfl) _ _ _,
      hall⟩
    have : ((Outcome.mk (emit (.scsiInitialize true)
        (vsay "Initializing SCSI device...\n" st)) .running).andThen
        (assist env true "Reading camera parameters...\n" env.scsiReadParameter
          .scsiReadParameter "Read Camera Mode")).andThen (set_cammode env) =
        (assist env true "Reading camera parameters...\n" env.scsiReadParameter
          .scsiReadParameter "Read Camera Mode" (emit (.scsiInitialize true)
            (vsay "Initializing SCSI device...\n" st))).andThen (set_cammode env) := rfl
    rw [this, hpost]
    simp [vsay, vprint_eq, emit]
  · refine ⟨if st.opts.verbose then [.print "Initializing SCSI device...\n"
      "Initializing SCSI device...\n"] else [], false,
      diagnostic env.codes "SCSI Initialize" (env.errorStatus (emit (.scsiInitialize false)
        (vsay "Initializing SCSI device...\n" st)).trace) ++ [Event.exit 1], ?_,
      all_vprint _ (fun _ _ => rfl) _ _ _, rfl⟩
    have : ((Outcome.mk (emit (.exit 1) (handle_error env "SCSI Initialize"
        (emit (.scsiInitialize false) (vsay "Initializing SCSI device...\n" st)))) .exited).andThen
        (set_cammode env)) = ⟨emit (.exit 1) (handle_error env "SCSI Initialize"
        (emit (.scsiInitialize false) (vsay "Initializing SCSI device...\n" st))), .exited⟩ := rfl
    rw [this]
    simp [handle_error_eq, vsay, vprint_eq, emit]

theorem offSession_of_offNegotiation {evs : List Event} (h : evs.all offNegotiation = true) :
    evs.all offSession = true := by
  rw [List.all_eq_true] at h ⊢
  intro e he
  have := h e he
  simp only [offNegotiation, Bool.and_eq_true] at this
  exact this.1

theorem countP_session_of_off {evs : List Event} (h : evs.all offSession = true) :
    evs.countP (fun e => kind e == .session) = 0 := by
  rw [List.countP_eq_zero]
  intro e he
  have := List.all_eq_true.1 h e he
  simpa [offSession] using this

theorem run_session_count (env : Env) (c : Command) (o : Options) :
    (run env c o).st.trace.countP (fun e => kind e == .session) = 1 := by
  rw [run_eq]
  obtain ⟨pre, b, post, ht, hpre, hpost⟩ := negotiate_session env (entryState env c o)
  have hg : Grows offNegotiation (negotiate env (entryState env c o)).st.trace
      ((negotiate env (entryState env c o)).andThen (continuation env c)).st.trace :=
    grows_andThen (grows_refl _ _) (continuation_grows env c)
  obtain ⟨evs, he, hall⟩ := hg
  rw [he, ht, entryState_trace]
  simp only [List.nil_append, List.countP_append, List.countP_cons, countP_session_of_off hpre,
    countP_session_of_off hpost, countP_session_of_off (offSession_of_offNegotiation hall)]
  rfl

theorem negotiate_grows (p : Event → Bool) (hp : ∀ a b, p (.print a b) = true)
    (hq : ∀ n, p (.getErrorStatus n) = true)
    (h1 : p .scsiFinish = true) (h2 : p .freeCameraData = true) (h3 : ∀ n, p (.exit n) = true)
    (hn : ∀ e, kind e = .negotiation → p e = true) (hs : ∀ b, p (.scsiInitialize b) = true)
    (env : Env) (st : State) : Grows p st.trace (negotiate env st).st.trace := by
  unfold negotiate
  refine grows_andThen ?_ (set_cammode_grows p hp hq h1 h2 h3 hn env)
  rw [get_cammode_eq]
  split
  · exact grows_andThen (o := ⟨_, .running⟩)
      (grows_emit _ (grows_vprint _ _ hp (grows_refl _ _)) (hs _))
      (assist_grows p hp hq h1 h2 h3 env true "Reading camera parameters...\n"
        env.scsiReadParameter .scsiReadParameter "Read Camera Mode" (fun _ => hn _ rfl))
  · exact grows_emit _ (grows_handle_error _ _ hp hq
      (grows_emit _ (grows_vprint _ _ hp (grows_refl _ _)) (hs _))) (h3 _)

theorem negotiate_harmless (env : Env) (st : State) :
    Grows harmless st.trace (negotiate env st).st.trace :=
  negotiate_grows harmless (fun _ _ => rfl) (fun _ => rfl) rfl rfl (fun _ => rfl)
    (fun e he => by simp [harmless, he]) (fun _ => rfl) env st

theorem harmless_kinds {e : Event} (h : harmless e = true) :
    kind e ≠ .rotation ∧ kind e ≠ .capture ∧ kind e ≠ .pickup ∧ kind e ≠ .fileOpen ∧
      kind e ≠ .fileWrite := by
  simpa [harmless, and_assoc] using h

theorem mem_of_grows_nil {p : Event → Bool} {t : List Event} (h : Grows p [] t) :
    ∀ e ∈ t, p e = true := by
  obtain ⟨evs, h1, h2⟩ := h
  rw [h1, List.nil_append]
  exact List.all_eq_true.1 h2

theorem scanLoop_none (env : Env) (fuel : Nat) (st : State) (h : st.opts.count ≤ 0) :
    scanLoop env fuel 1 st = ⟨st, .running⟩ := by
  have hn : ¬ (1 : Int) ≤ st.opts.count := by omega
  cases fuel <;> simp only [scanLoop, if_neg hn]

theorem imageLoop_none (env : Env) (fuel : Nat) (st : State) (h : st.opts.count ≤ 0) :
    imageLoop env fuel 1 st = ⟨st, .running⟩ := by
  have hn : ¬ (1 : Int) ≤ st.opts.count := by omega
  cases fuel <;> simp only [imageLoop, if_neg hn]

theorem entryState_count (env : Env) (c : Command) (o : Options) :
    (entryState env c o).opts.count = o.count := by
  cases c <;> rfl

theorem negotiate_opts (env : Env) (st : State) : (negotiate env st).st.opts = st.opts := by
  rcases negotiate_cases env st with h | h | h
  · obtain ⟨-, cm, ip, evs, hst, -⟩ := h
    rw [hst]
  · exact h.2.1
  · exact h.2.1

theorem continuation_none (env : Env) (c : Command) (hc : c ≠ .status) (st : State)
    (h : st.opts.count ≤ 0) : continuation env c st = finish_and_exit st := by
  cases c with
  | status => exact absurd rfl hc
  | scan => simp only [continuation, scanLoop_none env _ st h]; rfl
  | image => simp only [continuation, imageLoop_none env _ st h]; rfl

theorem count_finish_output (pre : List Event) (h : ∀ x ∈ pre, kind x = .output) :
    Event.scsiInitialize true ∉ pre := by
  intro hm
  have := h _ hm
  simp [kind] at this

theorem run_marks (env : Env) (hn : NegotiationSucceeds env) (c : Command) (o : Options)
    (hcount : 1 ≤ o.count)
    (L : Nat → Int → State → Outcome) (body : Int → State → Outcome)
    (hcont : ∀ st, continuation env c st = (L st.opts.count.toNat 1 st).andThen finish_and_exit)
    (h0 : ∀ i st, L 0 i st =
      if i ≤ st.opts.count then ⟨st, .outOfFuel⟩ else ⟨st, .running⟩)
    (hS : ∀ fuel i st, L (fuel + 1) i st =
      if i ≤ st.opts.count then ((body i st).andThen advance).andThen (L fuel (i + 1))
      else ⟨st, .running⟩)
    (tail : String → String → List Mark)
    (hbody : ∀ i st, st.opts.format = o.format → (body i st).status = .running ∧
      ∃ evs, (body i st).st =
        { st with
          filename := if st.opts.count > 1
            then st.opts.output.getD "" ++ fmtInt i ++ "." ++ st.opts.format else st.filename,
          trace := st.trace ++ evs } ∧
      marks evs = shotMarks st.opts.count (st.opts.output.getD "") st.opts.format st.filename
        tail i st.opts.start)
    (hfmt : (entryState env c o).opts.format = o.format)
    (hstart : (entryState env c o).opts.start = o.start) :
    (run env c o).status = .exited ∧
    marks (run env c o).st.trace = ((List.range o.count.toNat).map fun (j : Nat) =>
      shotMarks o.count ((entryState env c o).opts.output.getD "") o.format
        (entryState env c o).filename tail (1 + (j : Int))
        (o.start + (j : Int) * Int.tdiv 360 o.count)).flatten := by
  rw [run_eq]
  obtain ⟨hs, cm, ip, evs, hst, hq⟩ := negotiate_running env hn (entryState env c o)
  have hrun : (negotiate env (entryState env c o)).andThen (continuation env c) =
      continuation env c (negotiate env (entryState env c o)).st := by
    unfold Outcome.andThen; rw [hs]
  rw [hrun, hcont]
  have hopts : (negotiate env (entryState env c o)).st.opts = (entryState env c o).opts := by rw [hst]
  have hfn : (negotiate env (entryState env c o)).st.filename = (entryState env c o).filename := by
    rw [hst]
  obtain ⟨hl, evs', fn, hle, hlm⟩ := loop_spec L body h0 hS tail o.count
    ((entryState env c o).opts.output.getD "") o.format (entryState env c o).filename hbody
    o.count.toNat o.count.toNat 1 (negotiate env (entryState env c o)).st (le_refl _)
    (by omega) (le_refl _) (by rw [hopts, entryState_count]) (by rw [hopts])
    (by rw [hopts, hfmt]) (fun _ => hfn)
  rw [hopts, hstart] at hlm
  rw [hopts, entryState_count]
  have hfin : (L o.count.toNat 1 (negotiate env (entryState env c o)).st).andThen finish_and_exit
      = finish_and_exit (L o.count.toNat 1 (negotiate env (entryState env c o)).st).st := by
    unfold Outcome.andThen; rw [hl]
  rw [hfin]
  refine ⟨rfl, ?_⟩
  rw [finish_and_exit_trace, marks_append, marks_teardown, hle]
  simp only [List.append_nil]
  rw [hst]
  simp only [marks_append, entryState_trace, marks_nil, List.nil_append, marks_of_quiet evs hq, hlm]

theorem scan_marks (env : Env) (hn : NegotiationSucceeds env) (hc : CaptureNotFatal env)
    (ho : FopenSucceeds env) (o : Options) (hcount : 1 ≤ o.count) :
    (run env .scan o).status = .exited ∧
    marks (run env .scan o).st.trace = ((List.range o.count.toNat).map fun (j : Nat) =>
      shotMarks o.count (o.output.getD "image.hdr") o.format
        (sprintfName env (o.output.getD "image.hdr")) (fun _ fn => [.opened fn]) (1 + (j : Int))
        (o.start + (j : Int) * Int.tdiv 360 o.count)).flatten :=
  run_marks env hn .scan o hcount (scanLoop env) (scanBody env) (fun _ => rfl)
    (fun _ _ => rfl) (fun _ _ _ => rfl) _ (fun i st _ => scanBody_spec env hc ho i st) rfl rfl

theorem image_marks (env : Env) (hn : NegotiationSucceeds env) (hc : CaptureNotFatal env)
    (o : Options) (ho : o.format = "TIFF" → TiffOpenSucceeds env) (hcount : 1 ≤ o.count) :
    (run env .image o).status = .exited ∧
    marks (run env .image o).st.trace = ((List.range o.count.toNat).map fun (j : Nat) =>
      shotMarks o.count (o.output.getD "image") o.format
        (o.output.getD "image" ++ "." ++ o.format)
        (fun fmt fn => [.pickedUp, if fmt = "TIFF" then .opened fn else .unsupported])
        (1 + (j : Int)) (o.start + (j : Int) * Int.tdiv 360 o.count)).flatten :=
  run_marks env hn .image o hcount (imageLoop env) (imageBody env) (fun _ => rfl)
    (fun _ _ => rfl) (fun _ _ _ => rfl) _
    (fun i st hf => imageBody_spec env hc o.format ho i st hf) rfl rfl

theorem filter_flatten_map {α β : Type} (p : β → Bool) (F : α → List β) (l : List α) :
    ((l.map F).flatten).filter p = (l.map fun k => (F k).filter p).flatten := by
  induction l with
  | nil => rfl
  | cons a l ih => simp [List.filter_append, ih]

theorem count_flatten_map {α β : Type} [DecidableEq β] (x : β) (F : α → List β) (l : List α)
    (h : ∀ k, (F k).count x = 1) : ((l.map F).flatten).count x = l.length := by
  induction l with
  | nil => rfl
  | cons a l ih => simp [List.count_append, ih, h]; omega

theorem shotMarks_onAngle (count : Int) (base format fname : String)
    (tail : String → String → List Mark) (idx a : Int)
    (ht : ∀ f n, (tail f n).filter Mark.onAngle = []) :
    (shotMarks count base format fname tail idx a).filter Mark.onAngle =
      (if count > 1 then [.rotated (stageCommand a)] else []) ++ [.captured] := by
  unfold shotMarks
  split <;> simp [List.filter_cons, Mark.onAngle, ht]

theorem shotMarks_captured (count : Int) (base format fname : String)
    (tail : String → String → List Mark) (idx a : Int)
    (ht : ∀ f n, (tail f n).count .captured = 0) :
    (shotMarks count base format fname tail idx a).count .captured = 1 := by
  unfold shotMarks
  split <;> simp [List.count_cons, ht]

theorem written_append (a b : List Event) : written (a ++ b) = written a ++ written b := by
  unfold written; exact List.filterMap_append _ _ _

theorem written_vprint (b : Bool) (f t : String) :
    written (if b = true then [Event.print f t] else []) = [] := by
  cases b <;> rfl

theorem written_writeRow (buffer : List Nat) (n p : Nat) :
    written (writeRow buffer n p) =
      (List.range n).map fun j => fmtSample (buffer.getD (p + j) 0) ++ "\n" := by
  induction n generalizing p with
  | zero => rfl
  | succ n ih =>
    rw [writeRow, List.range_succ_eq_map, List.map_cons, List.map_map]
    have : written (Event.fprintf (fmtSample (buffer.getD p 0) ++ "\n") :: writeRow buffer n (p + 1))
        = (fmtSample (buffer.getD p 0) ++ "\n") :: written (writeRow buffer n (p + 1)) := rfl
    rw [this, ih]
    congr 1
    apply List.map_congr_left
    intro j _
    simp only [Function.comp, Nat.succ_eq_add_one]
    congr 3
    omega

theorem written_writeRows (v : Bool) (buffer : List Nat) (n p : Nat) :
    written (writeRows v buffer n p) =
      (List.range (n * 640)).map fun j => fmtSample (buffer.getD (p + j) 0) ++ "\n" := by
  induction n generalizing p with
  | zero => rfl
  | succ n ih =>
    rw [writeRows, written_append, written_append, ih, written_writeRow, say, written_vprint,
      List.nil_append, show (n + 1) * 640 = 640 + n * 640 by omega, List.range_add,
      List.map_append, List.map_map]
    congr 1
    apply List.map_congr_left
    intro j _
    simp only [Function.comp]
    congr 3
    omega

/-! # Theorems about the specification -/

/-! ## Channel permutation of the raster writer -/

/-- Claim C1, as stated, fails: after the loop byte 3 of a pixel still holds its old value. -/
theorem channel_permutation_counterexample :
    permuteChannels 4 [1, 2, 3, 4] = [4, 3, 2, 4] ∧
      permuteChannels 4 [1, 2, 3, 4] ≠ [4, 3, 2, 1] := by
  decide

/-- Claim C1, amended. For a pixel buffer whose length is a multiple of 4, the loop of
`cmd_image` keeps the length and turns the bytes `(A,B,C,D)` of every pixel into
`(D,C,B,D)`: byte 0 receives byte 3, bytes 1 and 2 are swapped, byte 3 keeps its
value; each pixel independently of the others. -/
theorem channel_permutation_amended (buf : List Nat) (h : buf.length % 4 = 0) :
    (permuteChannels buf.length buf).length = buf.length ∧
    ∀ k, 4 * k + 3 < buf.length →
      (permuteChannels buf.length buf).getD (4 * k) 0 = buf.getD (4 * k + 3) 0 ∧
      (permuteChannels buf.length buf).getD (4 * k + 1) 0 = buf.getD (4 * k + 2) 0 ∧
      (permuteChannels buf.length buf).getD (4 * k + 2) 0 = buf.getD (4 * k + 1) 0 ∧
      (permuteChannels buf.length buf).getD (4 * k + 3) 0 = buf.getD (4 * k + 3) 0 := by
  refine ⟨permuteLoop_length _ _ _ _, ?_⟩
  intro k hk
  have key := permuteLoop_getD buf.length h buf.length 0 buf rfl (by omega) (by omega)
  simp only [permuteChannels, Int.toNat_ofNat, key, Nat.not_lt_zero, if_false]
  unfold sourceIndex
  refine ⟨?_, ?_, ?_, ?_⟩ <;> (split_ifs <;> first | rfl | omega)

/-- The amended C1 at an eight-byte buffer. -/
theorem channel_permutation_amended_witness :
    ([1, 2, 3, 4, 5, 6, 7, 8] : List Nat).length % 4 = 0 ∧
    (permuteChannels 8 [1, 2, 3, 4, 5, 6, 7, 8]).length = 8 ∧
    (permuteChannels 8 [1, 2, 3, 4, 5, 6, 7, 8]).getD 4 0 = 8 ∧
    (permuteChannels 8 [1, 2, 3, 4, 5, 6, 7, 8]).getD 7 0 = 8 :=
  ⟨by decide, (channel_permutation_amended [1, 2, 3, 4, 5, 6, 7, 8] (by decide)).1,
    ((channel_permutation_amended [1, 2, 3, 4, 5, 6, 7, 8] (by decide)).2 1 (by decide)).1,
    ((channel_permutation_amended [1, 2, 3, 4, 5, 6, 7, 8] (by decide)).2 1 (by decide)).2.2.2⟩

/-! ## Capture failures -/

/-- In standard mode `perform_release` returns whatever the three device calls report. -/
theorem perform_release_returns (env : Env) (st : State) (h : st.opts.dynrangeexp = false) :
    (perform_release env st).status = .running := by
  unfold perform_release
  simp [h]

/-- Claim C2. With a device whose `VividIISCSIRelease` reports failure, `image` prints the
diagnostic for "Release" and goes on: it reads pitch and colour, picks up the image,
opens and writes `image.TIFF`, and only then closes the session. -/
theorem release_failure_not_fatal :
    (run Env.releaseFails .image Options.default).st.trace =
      [.scsiInitialize true,
       .scsiReadParameter true,
       .scsiWriteParameter ⟨600, 10, 1, 0, 5, 0, 10⟩ true,
       .scsiRelease false,
       .getErrorStatus 3,
       .print "%s Error %d (" "Release Error 3 (",
       .print "scsi read error" "scsi read error",
       .print ")\n" ")\n",
       .scsiReadPitch true,
       .scsiReadColor 0 true,
       .pickupColorImage true,
       .tiffOpen "image.TIFF" true,
       .tiffSetField .imageWidth (.num 2),
       .tiffSetField .imageLength (.num 1),
       .tiffSetField .samplesPerPixel (.num 4),
       .tiffSetField .bitsPerSample (.num 8),
       .tiffSetField .orientation .orientationTopLeft,
       .tiffSetField .planarConfig .planarConfigContig,
       .tiffSetField .photometric .photometricRGB,
       .tiffSetField .compression .compressionLZW,
       .tiffWriteEncodedStrip [4, 3, 2, 4, 8, 7, 6, 8] 8,
       .tiffClose,
       .print "Wrote %s ...\n" "Wrote image.TIFF ...\n",
       .scsiFinish,
       .freeCameraData,
       .exit 1] := by
  decide

/-! ## Overrides -/

/-- Claim C3. For every camera mode and every override set, each of the seven fields
distance, gain, release mode, threshold, auto-read, colour and laser power keeps its
value when its override is the unset value -1 and takes the override when that is
non-negative; applying the overrides a second time changes nothing. -/
theorem overrides_applied (o : Options) (m : CameraMode) :
    ((o.distance = -1 → (applyOverrides o m).distance = m.distance) ∧
      (0 ≤ o.distance → (applyOverrides o m).distance = o.distance)) ∧
    ((o.gain = -1 → (applyOverrides o m).gain = m.gain) ∧
      (0 ≤ o.gain → (applyOverrides o m).gain = o.gain)) ∧
    ((o.rmode = -1 → (applyOverrides o m).r_mode = m.r_mode) ∧
      (0 ≤ o.rmode → (applyOverrides o m).r_mode = o.rmode)) ∧
    ((o.threshold = -1 → (applyOverrides o m).threshold = m.threshold) ∧
      (0 ≤ o.threshold → (applyOverrides o m).threshold = o.threshold)) ∧
    ((o.autoread = -1 → (applyOverrides o m).autoRead = m.autoRead) ∧
      (0 ≤ o.autoread → (applyOverrides o m).autoRead = o.autoread)) ∧
    ((o.color = -1 → (applyOverrides o m).color = m.color) ∧
      (0 ≤ o.color → (applyOverrides o m).color = o.color)) ∧
    ((o.laserpower = -1 → (applyOverrides o m).laserPower = m.laserPower) ∧
      (0 ≤ o.laserpower → (applyOverrides o m).laserPower = o.laserpower)) ∧
    applyOverrides o (applyOverrides o m) = applyOverrides o m := by
  refine ⟨?_, ?_, ?_, ?_, ?_, ?_, ?_, applyOverrides_idem o m⟩ <;>
    (rw [applyOverrides_eq]
     constructor
     · intro h; simp [h]
     · intro h; simp [h])

/-- C3 at a mode read from the device and the overrides `-d 700 -g 3`. -/
theorem overrides_applied_witness :
    (applyOverrides { Options.default with distance := 700, gain := 3 }
        ⟨600, 10, 1, 0, 5, 0, 10⟩).distance = 700 ∧
    (applyOverrides { Options.default with distance := 700, gain := 3 }
        ⟨600, 10, 1, 0, 5, 0, 10⟩).laserPower = 10 :=
  ⟨(overrides_applied { Options.default with distance := 700, gain := 3 }
      ⟨600, 10, 1, 0, 5, 0, 10⟩).1.2 (by decide),
   (overrides_applied { Options.default with distance := 700, gain := 3 }
      ⟨600, 10, 1, 0, 5, 0, 10⟩).2.2.2.2.2.2.1.1 (by decide)⟩

/-! ## Angles of the multi-view loop -/

theorem ideal_negotiation : NegotiationSucceeds Env.ideal :=
  ⟨fun _ => rfl, fun _ _ => rfl, fun _ _ => rfl, fun _ _ => rfl, fun _ _ => rfl, fun _ _ => rfl⟩

theorem ideal_capture : CaptureNotFatal Env.ideal := by
  intro h d l g hc
  cases hc

/-- Claim C4. For `count >= 1`, when negotiation succeeds and no capture or open is
fatal, `scan` and `image` each end through the final `finish_and_exit` after exactly
`count` captures, and the rotations and captures of the run are, in order and for
`k = 0 .. count-1` (iteration `i = k+1`): when `count > 1` one `stage.exe` call with the
angle `start + k*(360/count)`, then the capture of that iteration; when `count = 1` the
capture alone.  The division is that of C `int`; `i` and `start` are not wrapped. -/
theorem multi_view_angles (env : Env) (hn : NegotiationSucceeds env)
    (hc : CaptureNotFatal env) (o : Options) (hcount : 1 ≤ o.count) :
    (FopenSucceeds env →
      (run env .scan o).status = .exited ∧
      (marks (run env .scan o).st.trace).count .captured = o.count.toNat ∧
      (marks (run env .scan o).st.trace).filter Mark.onAngle =
        perShot o.count fun k =>
          (if o.count > 1
            then [.rotated (stageCommand (o.start + (k : Int) * Int.tdiv 360 o.count))]
            else []) ++ [.captured]) ∧
    ((o.format = "TIFF" → TiffOpenSucceeds env) →
      (run env .image o).status = .exited ∧
      (marks (run env .image o).st.trace).count .captured = o.count.toNat ∧
      (marks (run env .image o).st.trace).filter Mark.onAngle =
        perShot o.count fun k =>
          (if o.count > 1
            then [.rotated (stageCommand (o.start + (k : Int) * Int.tdiv 360 o.count))]
            else []) ++ [.captured]) := by
  constructor
  · intro ho
    obtain ⟨hs, hm⟩ := scan_marks env hn hc ho o hcount
    refine ⟨hs, ?_, ?_⟩
    · rw [hm, count_flatten_map _ _ _ (fun k => shotMarks_captured _ _ _ _ _ _ _
        (fun _ _ => by simp)), List.length_range]
    · rw [hm, filter_flatten_map]
      unfold perShot
      congr 1
      apply List.map_congr_left
      intro k _
      exact shotMarks_onAngle _ _ _ _ _ _ _ (fun _ _ => by simp [Mark.onAngle])
  · intro ho
    obtain ⟨hs, hm⟩ := image_marks env hn hc o ho hcount
    refine ⟨hs, ?_, ?_⟩
    · rw [hm, count_flatten_map _ _ _ (fun k => shotMarks_captured _ _ _ _ _ _ _
        (fun f _ => by by_cases h : f = "TIFF" <;> simp [h])), List.length_range]
    · rw [hm, filter_flatten_map]
      unfold perShot
      congr 1
      apply List.map_congr_left
      intro k _
      exact shotMarks_onAngle _ _ _ _ _ _ _
        (fun f _ => by by_cases h : f = "TIFF" <;> simp [h, Mark.onAngle])

/-- C4 at `image -r 3 10`: three rotations, by 120 degrees, each before its capture. -/
theorem multi_view_angles_witness :
    (marks (run Env.ideal .image { Options.default with count := 3, start := 10 }).st.trace).filter
        Mark.onAngle =
      [.rotated "stage.exe -r 10", .captured, .rotated "stage.exe -r 130", .captured,
       .rotated "stage.exe -r 250", .captured] :=
  (((multi_view_angles Env.ideal ideal_negotiation ideal_capture
    { Options.default with count := 3, start := 10 } (by decide)).2
      (fun _ _ _ => rfl)).2.2).trans (by decide)

/-! ## Names of the output files -/

/-- Claim C6. The file written for one shot holds the seven header lines and then, for
`k = 640*y + x` in row-major order, the line printed for sample `k` of the buffer;
a sample is printed through `%d`, so the sample 2147483648 gives the line
`-2147483648`, not its decimal representation. -/
theorem scan_file_lines :
    (∀ (verbose : Bool) (buffer : List Nat),
      written (scanFile verbose buffer) =
        ["IBRraw.xdr\n", "@@ImageDim = 3\n", "@@ImageSize = 640 480\n",
         "@@buffer-channels-0 = 3\n", "@@buffer-primtype-0 = byte\n",
         "@@buffer-type-0 = color\n", "---end-of-header---\n"] ++
        (List.range (480 * 640)).map fun k => fmtSample (buffer.getD k 0) ++ "\n") ∧
    fmtSample 2147483648 = "-2147483648" ∧
    (written (scanFile false (List.replicate 307200 2147483648)))[7]? =
      some "-2147483648\n" := by
  have h : ∀ (verbose : Bool) (buffer : List Nat),
      written (scanFile verbose buffer) =
        ["IBRraw.xdr\n", "@@ImageDim = 3\n", "@@ImageSize = 640 480\n",
         "@@buffer-channels-0 = 3\n", "@@buffer-primtype-0 = byte\n",
         "@@buffer-type-0 = color\n", "---end-of-header---\n"] ++
        (List.range (480 * 640)).map fun k => fmtSample (buffer.getD k 0) ++ "\n" := by
    intro verbose buffer
    unfold scanFile
    simp only [written_append, written_writeRows, say, written_vprint, List.nil_append,
      List.append_nil, Nat.zero_add]
    have h1 : written scanHeader =
        ["IBRraw.xdr\n", "@@ImageDim = 3\n", "@@ImageSize = 640 480\n",
         "@@buffer-channels-0 = 3\n", "@@buffer-primtype-0 = byte\n",
         "@@buffer-type-0 = color\n", "---end-of-header---\n"] := rfl
    have h2 : written [Event.fclose] = [] := rfl
    rw [h1, h2, List.append_nil]
  have hs : fmtSample 2147483648 = "-2147483648" := by decide
  refine ⟨h, hs, ?_⟩
  rw [h, List.getElem?_append_right (Nat.le_refl 7), List.getElem?_map]
  have h0 : (List.range (480 * 640))[7 - 7]? = some 0 := List.getElem?_range (by omega)
  change Option.map _ (List.range (480 * 640))[7 - 7]? = _
  rw [h0, Option.map_some', List.getD_eq_getElem?_getD, List.getElem?_replicate,
    if_pos (by omega), Option.getD_some, hs]
  rfl

/-! ## Unsupported format -/

/-- Claim C8. Whatever the collaborators answer and whatever the command, when a
negotiation call made after the session was opened (reading the camera parameters, a
requested passive AF, active AF or active AF/AE, or the parameter write-back) reports
failure, the run ends through `exit`; before that call the trace holds only output and
negotiation calls that reported success; after it come exactly the error-status query
and the three `printf` calls of `handle_error` naming that step, then the teardown of
`finish_and_exit`: `VividIISCSIFinish` once, the release of `camdata` when it was
allocated, and `exit(1)`.  So the session is closed exactly once, and no rotation,
capture, pickup or file operation occurs anywhere in the run. -/
theorem negotiation_failure_fatal (env : Env) (o : Options) (c : Command) (e : Event)
    (msg : String) (he : e ∈ (run env c o).st.trace) (hf : failedStep e = some msg) :
    (run env c o).status = .exited ∧
    (∃ pre code, (run env c o).st.trace =
        pre ++ e :: (diagnostic env.codes msg code ++ teardown o.verbose (c != .status)) ∧
      ∀ x ∈ pre, quiet x = true) ∧
    (run env c o).st.trace.count .scsiFinish = 1 := by
  rw [run_eq] at he ⊢
  rcases negotiate_cases env (entryState env c o) with h | h | h
  · exfalso
    obtain ⟨hs, cm, ip, evs, hst, hq⟩ := h
    have hrun : (negotiate env (entryState env c o)).andThen (continuation env c) =
        continuation env c (negotiate env (entryState env c o)).st := by
      unfold Outcome.andThen; rw [hs]
    rw [hrun] at he
    obtain ⟨evs', h1, h2⟩ := continuation_grows env c (negotiate env (entryState env c o)).st
    rw [h1, hst] at he
    simp only [entryState_trace, List.nil_append, List.mem_append] at he
    rcases he with he | he
    · rw [failedStep_of_quiet (hq e he)] at hf; cases hf
    · rw [failedStep_of_all_off h2 he] at hf; cases hf
  · obtain ⟨hs, -, pre, e0, msg0, code, hf0, ht, hq⟩ := h
    have hrun : (negotiate env (entryState env c o)).andThen (continuation env c) =
        negotiate env (entryState env c o) := by
      unfold Outcome.andThen; rw [hs]
    rw [hrun] at he ⊢
    rw [ht] at he
    simp only [entryState_trace, List.nil_append, List.mem_append, List.mem_cons] at he
    have hee : e = e0 := by
      rcases he with he | he | he | he
      · rw [failedStep_of_quiet (hq e he)] at hf; cases hf
      · exact he
      · rw [failedStep_of_all_off (off_diagnostic _ _ _) he] at hf; cases hf
      · rw [failedStep_of_all_off (off_teardown _ _) he] at hf; cases hf
    subst hee
    have hmm : msg0 = msg := by rw [hf0] at hf; exact Option.some.inj hf
    subst hmm
    rw [entryState_trace, entryState_verbose, entryState_camdata, List.nil_append] at ht
    refine ⟨hs, ⟨pre, code, ht, hq⟩, ?_⟩
    rw [ht, List.count_append, List.count_cons, List.count_append, count_finish_of_quiet pre hq,
      count_finish_diagnostic, count_finish_teardown]
    cases e <;> simp [failedStep] at hf ⊢
  · exfalso
    obtain ⟨hs, -, pre, code, ht, hq⟩ := h
    have hrun : (negotiate env (entryState env c o)).andThen (continuation env c) =
        negotiate env (entryState env c o) := by
      unfold Outcome.andThen; rw [hs]
    rw [hrun, ht] at he
    simp only [entryState_trace, List.nil_append, List.mem_append, List.mem_cons] at he
    rcases he with he | he | he | he
    · have := hq e he
      cases e <;> simp [kind, failedStep] at this hf
    · subst he; cases hf
    · rw [failedStep_of_all_off (off_diagnostic _ _ _) he] at hf; cases hf
    · simp at he; subst he; cases hf

/-- C8 at a `status` run in which reading the camera parameters fails. -/
theorem negotiation_failure_fatal_witness :
    (run Env.readFails .status Options.default).status = .exited ∧
    (run Env.readFails .status Options.default).st.trace.count .scsiFinish = 1 :=
  ⟨(negotiation_failure_fatal Env.readFails Options.default .status (.scsiReadParameter false)
      "Read Camera Mode" (by decide) rfl).1,
   (negotiation_failure_fatal Env.readFails Options.default .status (.scsiReadParameter false)
      "Read Camera Mode" (by decide) rfl).2.2⟩

/-! ## The status command -/

/-- Claim C9. For every option state and whatever the collaborators answer, no event
of a `status` run opens or writes an output file, runs the turntable tool, or is a
capture or pickup call. -/
theorem status_isolation (env : Env) (o : Options) :
    ∀ e ∈ (run env .status o).st.trace,
      kind e ≠ .fileOpen ∧ kind e ≠ .rotation ∧ kind e ≠ .capture ∧ kind e ≠ .pickup ∧
        kind e ≠ .fileWrite := by
  intro e he
  have hg : Grows harmless [] (run env .status o).st.trace := by
    rw [run_eq]
    have := grows_andThen (negotiate_harmless env (entryState env .status o))
      (k := continuation env .status)
      (fun s => grows_finish (fun _ _ => rfl) rfl rfl (fun _ => rfl) (grows_append _ _ _ rfl))
    rwa [entryState_trace] at this
  obtain ⟨a, b, c, d, f⟩ := harmless_kinds (mem_of_grows_nil hg e he)
  exact ⟨d, a, b, c, f⟩

/-- C9 at the teardown event of a `status` run given `-r 3 0`. -/
theorem status_isolation_witness :
    kind Event.scsiFinish ≠ .fileOpen ∧ kind Event.scsiFinish ≠ .rotation ∧
      kind Event.scsiFinish ≠ .capture ∧ kind Event.scsiFinish ≠ .pickup ∧
      kind Event.scsiFinish ≠ .fileWrite :=
  status_isolation Env.ideal { Options.default with count := 3, start := 0 } .scsiFinish
    (by decide)

/-! ## Degenerate shot counts -/

/-- Claim C10. With `count <= 0` both loops return at once for every budget, leaving the
state as it was, so the step `360/count` is never evaluated; a `scan` or `image` run
then ends through `exit` (not in the undefined division), makes no rotation, capture,
pickup or file operation, calls `VividIISCSIInitialize` exactly once, and closes a
session that was opened exactly once. -/
theorem degenerate_count_safe (env : Env) (o : Options) (h : o.count ≤ 0) :
    (∀ (fuel : Nat) (st : State), st.opts.count ≤ 0 →
      scanLoop env fuel 1 st = ⟨st, .running⟩ ∧ imageLoop env fuel 1 st = ⟨st, .running⟩) ∧
    ∀ c : Command, c ≠ .status →
      (run env c o).status = .exited ∧
      (∀ e ∈ (run env c o).st.trace,
        kind e ≠ .rotation ∧ kind e ≠ .capture ∧ kind e ≠ .pickup ∧ kind e ≠ .fileOpen ∧
          kind e ≠ .fileWrite) ∧
      (run env c o).st.trace.countP (fun e => kind e == .session) = 1 ∧
      (Event.scsiInitialize true ∈ (run env c o).st.trace →
        (run env c o).st.trace.count .scsiFinish = 1) := by
  refine ⟨fun fuel st hst => ⟨scanLoop_none env fuel st hst, imageLoop_none env fuel st hst⟩, ?_⟩
  intro c hc
  have hk : ∀ st, st.opts = (entryState env c o).opts →
      continuation env c st = finish_and_exit st := by
    intro st hst
    exact continuation_none env c hc st (by rw [hst, entryState_count]; exact h)
  have hrun : run env c o =
      (negotiate env (entryState env c o)).andThen finish_and_exit := by
    rw [run_eq]
    unfold Outcome.andThen
    split
    · exact hk _ (negotiate_opts env _)
    · rfl
  refine ⟨?_, ?_, run_session_count env c o, ?_⟩
  · rw [hrun]
    rcases negotiate_cases env (entryState env c o) with hh | hh | hh
    · unfold Outcome.andThen; rw [hh.1]; rfl
    · unfold Outcome.andThen; rw [hh.1]; exact hh.1
    · unfold Outcome.andThen; rw [hh.1]; exact hh.1
  · intro e he
    have hg : Grows harmless [] (run env c o).st.trace := by
      rw [hrun]
      have := grows_andThen (negotiate_harmless env (entryState env c o)) (k := finish_and_exit)
        (fun s => grows_finish (fun _ _ => rfl) rfl rfl (fun _ => rfl) (grows_refl _ _))
      rwa [entryState_trace] at this
    exact harmless_kinds (mem_of_grows_nil hg e he)
  · rw [hrun]
    intro hm
    rcases negotiate_cases env (entryState env c o) with hh | hh | hh
    · obtain ⟨hs, cm, ip, evs, hst, hq⟩ := hh
      have : (negotiate env (entryState env c o)).andThen finish_and_exit =
          finish_and_exit (negotiate env (entryState env c o)).st := by
        unfold Outcome.andThen; rw [hs]
      rw [this, finish_and_exit_trace, hst, List.count_append, List.count_append,
        entryState_trace, count_finish_of_quiet evs hq, count_finish_teardown]
      rfl
    · obtain ⟨hs, -, pre, e0, msg0, code, hf0, ht, hq⟩ := hh
      have : (negotiate env (entryState env c o)).andThen finish_and_exit =
          negotiate env (entryState env c o) := by
        unfold Outcome.andThen; rw [hs]
      rw [this, ht, entryState_trace]
      rw [List.nil_append, List.count_append, List.count_cons, List.count_append,
        count_finish_of_quiet pre hq, count_finish_diagnostic, count_finish_teardown]
      cases e0 <;> simp [failedStep] at hf0 ⊢
    · exfalso
      obtain ⟨hs, -, pre, code, ht, hq⟩ := hh
      have : (negotiate env (entryState env c o)).andThen finish_and_exit =
          negotiate env (entryState env c o) := by
        unfold Outcome.andThen; rw [hs]
      rw [this, ht, entryState_trace] at hm
      simp only [List.nil_append, List.mem_append, List.mem_cons] at hm
      rcases hm with hm | hm | hm | hm
      · exact count_finish_output pre hq hm
      · cases hm
      · simp [diagnostic, say] at hm
      · simp at hm

/-- C10 at `image -r 0 90`. -/
theorem degenerate_count_safe_witness :
    (run Env.ideal .image { Options.default with count := 0, start := 90 }).status = .exited ∧
    (run Env.ideal .image { Options.default with count := 0, start := 90 }).st.trace.count
      .scsiFinish = 1 :=
  ⟨((degenerate_count_safe Env.ideal { Options.default with count := 0, start := 90 }
      (by decide)).2 .image (by decide)).1,
   ((degenerate_count_safe Env.ideal { Options.default with count := 0, start := 90 }
      (by decide)).2 .image (by decide)).2.2.2 (by decide)⟩

end V2scan
